import Mathlib

/-
Verification of the container / serialization core of ska-sdp-datamodels.

The Python sources embedded here are:
  * src/ska_sdp_datamodels/visibility/vis_model.py
      (Visibility, VisibilityAccessor, FlagTable, FlagTableAccessor)
  * src/ska_sdp_datamodels/visibility/vis_create.py
      (create_visibility)
  * src/ska_sdp_datamodels/calibration/calibration_functions.py
      (GainTable / PointingTable HDF5 converters, CASA table import)

Modelling conventions:
  * numpy arrays are modelled either as flat lists, or as a shape together
    with a value function on multi-indices (row-major semantics), whichever
    matches the access pattern of the code being embedded.
  * Real-valued (float) data is modelled in exact real arithmetic (ℝ), and
    data that only participates in order comparisons and copying is modelled
    in ℚ so that witnesses can be evaluated by `decide`.
  * h5py groups whose attribute/dataset keys are string literals fixed in
    the source are modelled as records with one field per literal key.
-/

namespace SkaSdp

/-! ## Baseline enumerator

Embedding of the `generate_baselines` closure defined inside
`VisibilityAccessor.select_r_range` (vis_model.py lines 653-657):

    def generate_baselines(baseline_id):
        for a1 in baseline_id:
            for a2 in baseline_id:
                if a2 >= a1:
                    yield a1, a2
-/

/-- Baseline enumerator: for each `a1` in `baseline_id` (outer loop) and each
`a2` in `baseline_id` (inner loop) with `a2 >= a1`, yield the pair
`(a1, a2)`. -/
def generate_baselines (baseline_id : List ℕ) : List (ℕ × ℕ) :=
  baseline_id.flatMap fun a1 =>
    (baseline_id.filter fun a2 => a1 ≤ a2).map fun a2 => (a1, a2)

/-- Strict lexicographic order on antenna pairs: the order in which the
baseline enumerator emits pairs (outer antenna ascending, then inner
antenna ascending). -/
def pairLexLt (p q : ℕ × ℕ) : Prop :=
  p.1 < q.1 ∨ (p.1 = q.1 ∧ p.2 < q.2)

instance : DecidableRel pairLexLt := fun p q => by
  unfold pairLexLt; infer_instance

lemma filter_le_of_head_lt (a : ℕ) (rest : List ℕ) (h : ∀ x ∈ rest, a < x) :
    (a :: rest).filter (fun a2 => a ≤ a2) = a :: rest := by
  rw [List.filter_cons_of_pos (by simp)]
  congr 1
  rw [List.filter_eq_self]
  intro x hx
  simpa using le_of_lt (h x hx)

lemma generate_baselines_cons (a : ℕ) (rest : List ℕ)
    (h : ∀ x ∈ rest, a < x) :
    generate_baselines (a :: rest)
      = ((a :: rest).map fun x => (a, x)) ++ generate_baselines rest := by
  unfold generate_baselines
  rw [List.flatMap_cons, filter_le_of_head_lt a rest h]
  congr 1
  apply List.flatMap_congr
  intro a1 h1
  rw [List.filter_cons_of_neg (by simpa using not_le.mpr (h a1 h1))]

lemma generate_baselines_fst_mem {ids : List ℕ} {p : ℕ × ℕ}
    (hp : p ∈ generate_baselines ids) : p.1 ∈ ids := by
  unfold generate_baselines at hp
  rw [List.mem_flatMap] at hp
  obtain ⟨a1, ha1, hmem⟩ := hp
  rw [List.mem_map] at hmem
  obtain ⟨a2, _, rfl⟩ := hmem
  exact ha1

lemma generate_baselines_le {ids : List ℕ} {p : ℕ × ℕ}
    (hp : p ∈ generate_baselines ids) : p.1 ≤ p.2 := by
  unfold generate_baselines at hp
  rw [List.mem_flatMap] at hp
  obtain ⟨a1, _, hmem⟩ := hp
  rw [List.mem_map] at hmem
  obtain ⟨a2, ha2, rfl⟩ := hmem
  simpa using (List.of_mem_filter ha2)

lemma generate_baselines_two_mul_length (ids : List ℕ)
    (hs : ids.Pairwise (· < ·)) :
    2 * (generate_baselines ids).length = ids.length * (ids.length + 1) := by
  induction ids with
  | nil => simp [generate_baselines]
  | cons a rest ih =>
      rw [List.pairwise_cons] at hs
      rw [generate_baselines_cons a rest hs.1]
      simp only [List.length_append, List.length_map, List.length_cons]
      rw [Nat.mul_add, ih hs.2]
      ring

lemma generate_baselines_nodup (ids : List ℕ)
    (hs : ids.Pairwise (· < ·)) :
    (generate_baselines ids).Nodup := by
  induction ids with
  | nil => simp [generate_baselines]
  | cons a rest ih =>
      rw [List.pairwise_cons] at hs
      rw [generate_baselines_cons a rest hs.1]
      apply List.Nodup.append
      · apply List.Nodup.map
        · intro x y hxy
          exact (Prod.mk.injEq _ _ _ _).mp hxy |>.2
        · exact (List.pairwise_cons.mpr hs).nodup
      · exact ih hs.2
      · intro p hp hq
        rw [List.mem_map] at hp
        obtain ⟨x, _, rfl⟩ := hp
        have h1 := generate_baselines_fst_mem hq
        exact absurd rfl (ne_of_lt (hs.1 _ h1))

lemma generate_baselines_ordered (ids : List ℕ)
    (hs : ids.Pairwise (· < ·)) :
    (generate_baselines ids).Pairwise pairLexLt := by
  induction ids with
  | nil => simp [generate_baselines]
  | cons a rest ih =>
      rw [List.pairwise_cons] at hs
      rw [generate_baselines_cons a rest hs.1]
      apply List.pairwise_append.mpr
      refine ⟨?_, ih hs.2, ?_⟩
      · rw [List.pairwise_map]
        apply List.Pairwise.imp ?_ (List.pairwise_cons.mpr hs)
        intro x y hxy
        exact Or.inr ⟨rfl, hxy⟩
      · intro p hp q hq
        rw [List.mem_map] at hp
        obtain ⟨x, _, rfl⟩ := hp
        exact Or.inl (hs.1 _ (generate_baselines_fst_mem hq))

/-- C3: for every `nants = n ≥ 1` the baseline enumerator applied to the
antenna indices `0 .. n-1` produces exactly `n(n+1)/2` pairs `(a1, a2)`,
every pair satisfying `a1 ≤ a2`, with no duplicate pairs, emitted in
ascending outer-to-inner lexicographic order; and the same rule applied to
any retained (strictly ascending) subset of antenna IDs — as produced by
`select_r_range` — yields the analogous enumeration over that subset. -/
theorem generate_baselines_canonical_enumeration
    (n : ℕ) (hn : 1 ≤ n) (ids : List ℕ) (hids : ids.Pairwise (· < ·)) :
    ((generate_baselines (List.range n)).length = n * (n + 1) / 2
      ∧ (∀ p ∈ generate_baselines (List.range n), p.1 ≤ p.2)
      ∧ (generate_baselines (List.range n)).Nodup
      ∧ (generate_baselines (List.range n)).Pairwise pairLexLt)
    ∧ ((generate_baselines ids).length
          = ids.length * (ids.length + 1) / 2
      ∧ (∀ p ∈ generate_baselines ids, p.1 ≤ p.2)
      ∧ (generate_baselines ids).Nodup
      ∧ (generate_baselines ids).Pairwise pairLexLt) := by
  have hr : (List.range n).Pairwise (· < ·) := List.pairwise_lt_range n
  constructor
  · refine ⟨?_, fun p hp => generate_baselines_le hp,
      generate_baselines_nodup _ hr, generate_baselines_ordered _ hr⟩
    have h2 := generate_baselines_two_mul_length _ hr
    rw [List.length_range] at h2
    omega
  · refine ⟨?_, fun p hp => generate_baselines_le hp,
      generate_baselines_nodup _ hids, generate_baselines_ordered _ hids⟩
    have h2 := generate_baselines_two_mul_length _ hids
    omega

/-- Witness for C3: the enumeration properties evaluated at `n = 3` and at
the retained antenna subset `[0, 2, 5]`. -/
theorem generate_baselines_canonical_enumeration_witness :
    (generate_baselines (List.range 3)).length = 3 * (3 + 1) / 2
      ∧ generate_baselines [0, 2, 5]
          = [(0, 0), (0, 2), (0, 5), (2, 2), (2, 5), (5, 5)] := by
  have h := generate_baselines_canonical_enumeration 3 (by decide)
    [0, 2, 5] (by decide)
  exact ⟨h.1.1, by decide⟩

/-! ## Arrays and science-data-model value objects

numpy arrays are modelled as a (row-major) shape together with a total
value function on multi-indices; all writes performed by the embedded code
are whole-slice writes, which become pointwise function updates. -/

/-- Model of a numpy ndarray: a shape and a value for every multi-index. -/
structure NDArray (α : Type) where
  shape : List ℕ
  val : List ℕ → α

/-- Model of `numpy.ones(shape)`. -/
def ndOnes (shape : List ℕ) : NDArray ℝ :=
  ⟨shape, fun _ => 1⟩

/-- Model of `numpy.zeros(shape)` over the complex numbers
(`numpy.zeros(visshape, dtype="complex")`). -/
def ndZerosC (shape : List ℕ) : NDArray ℂ :=
  ⟨shape, fun _ => 0⟩

/-- Row-major enumeration of all multi-indices of a shape. -/
def indicesOf : List ℕ → List (List ℕ)
  | [] => [[]]
  | d :: ds => (List.range d).flatMap fun i => (indicesOf ds).map (i :: ·)

/-- Flattening of an ndarray: its values listed in row-major index order. -/
def NDArray.flat {α : Type} (a : NDArray α) : List α :=
  (indicesOf a.shape).map a.val

lemma length_indicesOf (shape : List ℕ) :
    (indicesOf shape).length = shape.prod := by
  induction shape with
  | nil => simp [indicesOf]
  | cons d ds ih =>
      simp [indicesOf, List.length_flatMap, ih, Function.comp_def,
        List.map_const', mul_comm]

lemma flat_const {α : Type} (shape : List ℕ) (c : α) :
    (NDArray.mk shape fun _ => c).flat = List.replicate shape.prod c := by
  unfold NDArray.flat
  rw [show (fun _ : List ℕ => c) = Function.const (List ℕ) c from rfl,
    List.map_const, length_indicesOf]

/-- Model of a `PolarisationFrame`: a frame tag together with its canonical
ordered polarisation label list (external value object, spec §3/§6). -/
structure PolarisationFrame where
  type : String
  names : List String
deriving DecidableEq

/-- Model of a `ReceptorFrame`: a frame tag together with its receptor
count `nrec` (external value object, spec §3/§6). -/
structure ReceptorFrame where
  type : String
  nrec : ℕ
deriving DecidableEq

/-- Model of the antenna `Configuration` value object (external, consumed
with a defined serialization contract, spec §6): antenna names, positions,
mounts, diameters, offsets, station labels, frame name and array
location. -/
structure Configuration where
  name : String
  location : ℚ × ℚ × ℚ
  names : List String
  xyz : List (ℚ × ℚ × ℚ)
  mount : List String
  frame : String
  receptor_frame : ReceptorFrame
  diameter : List ℚ
  offset : List (ℚ × ℚ × ℚ)
  stations : List String
deriving DecidableEq

/-- Model of a sky coordinate (`astropy.coordinates.SkyCoord`): the two
centre coordinate values plus the coordinate frame name. -/
structure SkyCoordModel where
  coords : ℚ × ℚ
  frame : String
deriving DecidableEq

/-! ## Visibility container (vis_model.py)

The `Visibility.constructor` classmethod (vis_model.py lines 139-275).
The wall-clock `datetime` column is produced by the external astropy
`Time(time / 86400.0, format="mjd", scale="utc").datetime64` conversion;
it is modelled by its deterministic input `time / 86400` (MJD days).
`astype(low_precision)` / `astype(int)` dtype conversions keep the numeric
values in this exact-arithmetic model. -/

structure Visibility where
  time : List ℝ
  baselines : List (ℕ × ℕ)
  frequency : List ℝ
  polarisation : List String
  integration_time : List ℝ
  datetime : List ℝ
  vis : NDArray ℂ
  weight : NDArray ℝ
  flags : NDArray ℤ
  uvw : NDArray ℝ
  channel_bandwidth : List ℝ
  phasecentre : Option SkyCoordModel
  configuration : Option Configuration
  polarisation_frame : String
  source : String
  data_model : String

/-- Embedding of `Visibility.constructor` (vis_model.py lines 139-275).
The two `assert` statements at lines 219 and 224 guard the cross-array
shape invariants; per the spec's error taxonomy (§7) their failure is the
`ShapeMismatch` error. -/
noncomputable def Visibility.constructor
    (frequency : List ℝ) (channel_bandwidth : List ℝ)
    (phasecentre : Option SkyCoordModel)
    (configuration : Option Configuration)
    (uvw : NDArray ℝ) (time : List ℝ)
    (vis : NDArray ℂ) (weight : Option (NDArray ℝ))
    (integration_time : Option (List ℝ)) (flags : NDArray ℤ)
    (baselines : List (ℕ × ℕ))
    (polarisation_frame : PolarisationFrame)
    (source : String) : Except String Visibility := do
  let w ← match weight with
    | none => pure (ndOnes vis.shape)
    | some w =>
        if w.shape = vis.shape then pure w
        else Except.error "ShapeMismatch"
  let it ← match integration_time with
    | none => pure (List.replicate time.length (1 : ℝ))
    | some it =>
        if it.length = time.length then pure it
        else Except.error "ShapeMismatch"
  Except.ok
    { time := time
      baselines := baselines
      frequency := frequency
      polarisation := polarisation_frame.names
      integration_time := it
      datetime := time.map (fun t => t / 86400)
      vis := vis
      weight := w
      flags := flags
      uvw := uvw
      channel_bandwidth := channel_bandwidth
      phasecentre := phasecentre
      configuration := configuration
      polarisation_frame := polarisation_frame.type
      source := source
      data_model := "Visibility" }

/-- C4: constructing a Visibility with a weight array whose shape differs
from `vis.shape` fails with the `ShapeMismatch` error; constructing with
weight omitted succeeds and stores an all-ones weight of shape `vis.shape`;
constructing with `integration_time` omitted stores an all-ones array of
length `len(time)`. -/
theorem visibility_constructor_shape_checks_and_defaults
    (frequency channel_bandwidth : List ℝ) (phasecentre : Option SkyCoordModel)
    (configuration : Option Configuration) (uvw : NDArray ℝ) (time : List ℝ)
    (vis : NDArray ℂ) (flags : NDArray ℤ) (baselines : List (ℕ × ℕ))
    (pf : PolarisationFrame) (source : String) :
    (∀ w : NDArray ℝ, w.shape ≠ vis.shape →
      ∀ it : Option (List ℝ),
        Visibility.constructor frequency channel_bandwidth phasecentre
          configuration uvw time vis (some w) it flags baselines pf source
          = Except.error "ShapeMismatch")
    ∧ (∃ r : Visibility,
        Visibility.constructor frequency channel_bandwidth phasecentre
          configuration uvw time vis none none flags baselines pf source
          = Except.ok r
        ∧ r.weight = ndOnes vis.shape
        ∧ r.integration_time = List.replicate time.length (1 : ℝ)) := by
  constructor
  · intro w hw it
    simp only [Visibility.constructor, bind, Except.bind, if_neg hw]
  · exact ⟨_, rfl, rfl, rfl⟩

/-- Witness for C4 at a concrete input: a 1×1×1×1 visibility array, a
mismatched 2-element weight array, and the defaulted construction. -/
theorem visibility_constructor_shape_checks_and_defaults_witness :
    (Visibility.constructor [] [] none none ⟨[1, 1, 3], fun _ => 0⟩ [0, 1]
        ⟨[1, 1, 1, 1], fun _ => 0⟩ (some (ndOnes [2])) none
        ⟨[1, 1, 1, 1], fun _ => 0⟩ [(0, 0)] ⟨"stokesI", ["I"]⟩ "anonymous"
        = Except.error "ShapeMismatch")
    ∧ (∃ r : Visibility,
        Visibility.constructor [] [] none none ⟨[1, 1, 3], fun _ => 0⟩ [0, 1]
          ⟨[1, 1, 1, 1], fun _ => 0⟩ none none
          ⟨[1, 1, 1, 1], fun _ => 0⟩ [(0, 0)] ⟨"stokesI", ["I"]⟩ "anonymous"
          = Except.ok r
        ∧ r.weight = ndOnes [1, 1, 1, 1]
        ∧ r.integration_time = List.replicate 2 (1 : ℝ)) := by
  have h := visibility_constructor_shape_checks_and_defaults
    [] [] none none ⟨[1, 1, 3], fun _ => 0⟩ [0, 1]
    ⟨[1, 1, 1, 1], fun _ => 0⟩ ⟨[1, 1, 1, 1], fun _ => 0⟩ [(0, 0)]
    ⟨"stokesI", ["I"]⟩ "anonymous"
  exact ⟨h.1 (ndOnes [2]) (by decide) none, h.2⟩

/-- Exact value of `astropy.constants.c` in metres per second. -/
def cLight : ℝ := 299792458

/-- Concrete single-sample Visibility container used to instantiate
hypothesis-bearing theorems: one time, one autocorrelation baseline, one
channel at frequency `c` (so the wavenumber scale factor is 1), one
polarisation, zero-valued arrays. -/
noncomputable def exampleVisibility : Visibility :=
  { time := [0], baselines := [(0, 0)], frequency := [cLight]
    polarisation := ["I"], integration_time := [1], datetime := [0]
    vis := ndZerosC [1, 1, 1, 1], weight := ndOnes [1, 1, 1, 1]
    flags := ⟨[1, 1, 1, 1], fun _ => 0⟩
    uvw := ⟨[1, 1, 3], fun _ => 0⟩, channel_bandwidth := [1]
    phasecentre := none, configuration := none
    polarisation_frame := "stokesI", source := "unknown"
    data_model := "Visibility" }

/-! ## VisibilityAccessor (vis_model.py lines 411-663)

The accessor carries the container plus the `_uvw_lambda` cache slot
(initialised to `None` in `__init__`). -/

/-- Embedding of the `uvw_lambda` computation (vis_model.py lines 464-473):
`k = frequency / c`; for one channel `(uvw * k)[..., newaxis, :]`, otherwise
`einsum("tbs,k->tbks", uvw, k)`; either way entry `[t, b, f, s]` equals
`uvw[t, b, s] * k[f]`. -/
noncomputable def uvwLambdaCompute (v : Visibility) : NDArray ℝ :=
  let k : ℕ → ℝ := fun f => v.frequency.getD f 0 / cLight
  let t := v.uvw.shape.getD 0 0
  let b := v.uvw.shape.getD 1 0
  if v.frequency.length = 1 then
    ⟨[t, b, 1, 3], fun idx =>
      v.uvw.val [idx.getD 0 0, idx.getD 1 0, idx.getD 3 0] * k 0⟩
  else
    ⟨[t, b, v.frequency.length, 3], fun idx =>
      v.uvw.val [idx.getD 0 0, idx.getD 1 0, idx.getD 3 0] * k (idx.getD 2 0)⟩

/-- Accessor state: the container and the `_uvw_lambda` cache slot. -/
structure VisibilityAccessor where
  obj : Visibility
  cacheUvwLambda : Option (NDArray ℝ)

/-- Accessor construction (`__init__`, vis_model.py lines 417-419): the
cache slot starts out empty. -/
def VisibilityAccessor.init (v : Visibility) : VisibilityAccessor :=
  ⟨v, none⟩

/-- Reading the `uvw_lambda` property (vis_model.py lines 456-475): on a
cache miss the value is computed from the current `uvw` and memoized; on a
hit the memoized value is returned unchanged. -/
noncomputable def VisibilityAccessor.uvw_lambda_read
    (a : VisibilityAccessor) : NDArray ℝ × VisibilityAccessor :=
  match a.cacheUvwLambda with
  | some c => (c, a)
  | none =>
      let c := uvwLambdaCompute a.obj
      (c, ⟨a.obj, some c⟩)

/-- The `uvw_lambda` setter (vis_model.py lines 477-494): validates the
replacement against `(ntimes, nbaselines, nchan, 3)` and overwrites the
cache; a shape mismatch raises (the spec's `IncompatibleUpdate`, §7). -/
def VisibilityAccessor.uvw_lambda_write (a : VisibilityAccessor)
    (newValue : NDArray ℝ) : Except String VisibilityAccessor :=
  if newValue.shape
      = [a.obj.time.length, a.obj.baselines.length,
         a.obj.frequency.length, 3] then
    Except.ok ⟨a.obj, some newValue⟩
  else
    Except.error "IncompatibleUpdate"

/-- In-place replacement of the container's `uvw` data variable (e.g.
`vis["uvw"].data[...] = ...`); the accessor cache slot is untouched. -/
def VisibilityAccessor.set_uvw (a : VisibilityAccessor)
    (newUvw : NDArray ℝ) : VisibilityAccessor :=
  ⟨{ a.obj with uvw := newUvw }, a.cacheUvwLambda⟩

/-- C7: `uvw_lambda` is computed lazily on first read and memoized; after
that first read an in-place mutation of the container's `uvw` data variable
does not change the value returned by subsequent reads (the stale memoized
value is returned unchanged); replacing the value through the explicit
setter is what installs a new value. -/
theorem uvw_lambda_lazy_memoized_stale (v : Visibility)
    (newUvw : NDArray ℝ) :
    (((VisibilityAccessor.init v).uvw_lambda_read).1 = uvwLambdaCompute v
      ∧ ((VisibilityAccessor.init v).uvw_lambda_read).2.cacheUvwLambda
          = some (uvwLambdaCompute v))
    ∧ (∀ (a : VisibilityAccessor) (c : NDArray ℝ),
        a.cacheUvwLambda = some c →
          ((a.set_uvw newUvw).uvw_lambda_read).1 = (a.uvw_lambda_read).1)
    ∧ (∀ (a a' : VisibilityAccessor) (nv : NDArray ℝ),
        a.uvw_lambda_write nv = Except.ok a' →
          (a'.uvw_lambda_read).1 = nv) := by
  refine ⟨⟨rfl, rfl⟩, ?_, ?_⟩
  · intro a c hc
    simp [VisibilityAccessor.set_uvw, VisibilityAccessor.uvw_lambda_read, hc]
  · intro a a' nv hw
    unfold VisibilityAccessor.uvw_lambda_write at hw
    by_cases hs : nv.shape
        = [a.obj.time.length, a.obj.baselines.length,
           a.obj.frequency.length, 3]
    · rw [if_pos hs] at hw
      cases hw
      rfl
    · rw [if_neg hs] at hw
      cases hw

/-- Witness for C7: a concrete container whose memoized `uvw_lambda`
survives an in-place overwrite of `uvw` with an all-ones array. -/
theorem uvw_lambda_lazy_memoized_stale_witness :
    ((((VisibilityAccessor.init exampleVisibility).uvw_lambda_read).2.set_uvw
        (ndOnes [1, 1, 3])).uvw_lambda_read).1
      = ((((VisibilityAccessor.init
          exampleVisibility).uvw_lambda_read).2).uvw_lambda_read).1 :=
  (uvw_lambda_lazy_memoized_stale exampleVisibility
    (ndOnes [1, 1, 3])).2.1 _ _ rfl

/-! ## select_uv_range (vis_model.py lines 579-608) -/

/-- Model of `numpy.hypot`. -/
noncomputable def numpyHypot (x y : ℝ) : ℝ :=
  Real.sqrt (x ^ 2 + y ^ 2)

/-- The projected (u, v) radius in wavelengths of sample `idx`, as
`select_uv_range` computes it:
`numpy.hypot(self.uvw_lambda[..., 0], self.uvw_lambda[..., 1])` on the
value produced by reading the `uvw_lambda` property. -/
noncomputable def readUvDist (a : VisibilityAccessor) (idx : List ℕ) : ℝ :=
  numpyHypot
    (((a.uvw_lambda_read).1).val [idx.getD 0 0, idx.getD 1 0, idx.getD 2 0, 0])
    (((a.uvw_lambda_read).1).val [idx.getD 0 0, idx.getD 1 0, idx.getD 2 0, 1])

open Classical in
/-- Embedding of `VisibilityAccessor.select_uv_range` (vis_model.py lines
579-608): reading `uvw_lambda` (which memoizes), then two in-place flag
writes — first `flags[uvdist_lambda >= uvmax] = 1`, then
`flags[uvdist_lambda <= uvmin] = 1`; each rank-3 boolean mask sets every
polarisation of the selected samples. `None` bounds skip their write. -/
noncomputable def VisibilityAccessor.select_uv_range (a : VisibilityAccessor)
    (uvmin uvmax : Option ℝ) : VisibilityAccessor :=
  let a1 := (a.uvw_lambda_read).2
  let flags1 : NDArray ℤ :=
    match uvmax with
    | none => a1.obj.flags
    | some m =>
        ⟨a1.obj.flags.shape, fun idx =>
          if readUvDist a idx ≥ m then 1 else a1.obj.flags.val idx⟩
  let flags2 : NDArray ℤ :=
    match uvmin with
    | none => flags1
    | some m =>
        ⟨flags1.shape, fun idx =>
          if readUvDist a idx ≤ m then 1 else flags1.val idx⟩
  ⟨{ a1.obj with flags := flags2 }, a1.cacheUvwLambda⟩

/-- Concrete container for the `select_uv_range` boundary counterexample:
one sample with `uvw = (3, 4, 0)` metres at frequency `c`, so its (u, v)
radius in wavelengths is exactly 5; flags all zero. -/
noncomputable def exampleVisibilityUv : Visibility :=
  { exampleVisibility with
      uvw := ⟨[1, 1, 3], fun idx =>
        if idx.getD 2 0 = 0 then 3 else if idx.getD 2 0 = 1 then 4 else 0⟩ }

lemma exampleVisibilityUv_dist :
    readUvDist (VisibilityAccessor.init exampleVisibilityUv) [0, 0, 0, 0]
      = 5 := by
  have hk : cLight / cLight = (1 : ℝ) := by
    rw [div_self]; norm_num [cLight]
  simp only [readUvDist, VisibilityAccessor.uvw_lambda_read,
    VisibilityAccessor.init, uvwLambdaCompute, exampleVisibilityUv,
    exampleVisibility, numpyHypot]
  norm_num [hk]
  rw [show (25 : ℝ) = 5 ^ 2 by norm_num, Real.sqrt_sq (by norm_num)]

/-- Counterexample to C5 as stated: with bounds `uvmin = 1`, `uvmax = 5`,
the sample whose (u, v) radius is exactly 5 lies inside the closed interval
`[uvmin, uvmax]` — so by the claim its flag should stay 0 — yet
`select_uv_range` sets its flag to 1 (the source flags `uvdist >= uvmax`,
not `uvdist > uvmax`). -/
theorem select_uv_range_closed_interval_counterexample :
    (((VisibilityAccessor.init exampleVisibilityUv).select_uv_range
        (some 1) (some 5)).obj.flags.val [0, 0, 0, 0] = 1)
    ∧ exampleVisibilityUv.flags.val [0, 0, 0, 0] = 0
    ∧ ¬ (readUvDist (VisibilityAccessor.init exampleVisibilityUv)
            [0, 0, 0, 0] < 1
        ∨ readUvDist (VisibilityAccessor.init exampleVisibilityUv)
            [0, 0, 0, 0] > 5) := by
  refine ⟨?_, rfl, ?_⟩
  · simp only [VisibilityAccessor.select_uv_range]
    rw [if_neg (by rw [exampleVisibilityUv_dist]; norm_num),
      if_pos (by rw [exampleVisibilityUv_dist])]
  · rw [exampleVisibilityUv_dist]
    push_neg
    norm_num

/-- C5 (amended): `select_uv_range` never clears a flag (every element that
was 1 beforehand is still 1 afterwards), and on 0/1-valued flags it sets to
1 exactly those samples whose projected (u, v) radius in wavelengths lies
outside the *open* interval `(uvmin, uvmax)` — i.e. radius `≥ uvmax` or
`≤ uvmin`, bounds included — leaving all other flags unchanged. -/
theorem select_uv_range_monotone_flags_characterization
    (a : VisibilityAccessor) (uvmin uvmax : Option ℝ)
    (hflags : ∀ idx, a.obj.flags.val idx = 0 ∨ a.obj.flags.val idx = 1) :
    ∀ idx : List ℕ,
      (a.obj.flags.val idx = 1 →
        (a.select_uv_range uvmin uvmax).obj.flags.val idx = 1)
      ∧ ((a.select_uv_range uvmin uvmax).obj.flags.val idx = 1 ↔
          (a.obj.flags.val idx = 1
            ∨ (∃ m, uvmax = some m ∧ readUvDist a idx ≥ m)
            ∨ (∃ m, uvmin = some m ∧ readUvDist a idx ≤ m))) := by
  intro idx
  have hbase : ((a.uvw_lambda_read).2).obj.flags = a.obj.flags := by
    unfold VisibilityAccessor.uvw_lambda_read
    cases h : a.cacheUvwLambda <;> simp
  simp only [VisibilityAccessor.select_uv_range, hbase]
  cases uvmax with
  | none =>
      cases uvmin with
      | none =>
          refine ⟨fun h => h, ?_⟩
          simp
      | some mn =>
          by_cases hd : readUvDist a idx ≤ mn
          · simp [hd]
          · simp only [if_neg hd]
            constructor
            · exact fun h => h
            · constructor
              · exact fun h => Or.inl h
              · rintro (h | ⟨m, hm, _⟩ | ⟨m, hm, hle⟩)
                · exact h
                · cases hm
                · rw [Option.some.injEq] at hm
                  exact absurd (hm ▸ hle) hd
  | some mx =>
      cases uvmin with
      | none =>
          by_cases hd : readUvDist a idx ≥ mx
          · simp [hd]
          · simp only [if_neg hd]
            constructor
            · exact fun h => h
            · constructor
              · exact fun h => Or.inl h
              · rintro (h | ⟨m, hm, hge⟩ | ⟨m, hm, _⟩)
                · exact h
                · rw [Option.some.injEq] at hm
                  exact absurd (hm ▸ hge) hd
                · cases hm
      | some mn =>
          by_cases hmin : readUvDist a idx ≤ mn
          · simp [hmin]
          · simp only [if_neg hmin]
            by_cases hmax : readUvDist a idx ≥ mx
            · simp [hmax]
            · simp only [if_neg hmax]
              constructor
              · exact fun h => h
              · constructor
                · exact fun h => Or.inl h
                · rintro (h | ⟨m, hm, hge⟩ | ⟨m, hm, hle⟩)
                  · exact h
                  · rw [Option.some.injEq] at hm
                    exact absurd (hm ▸ hge) hmax
                  · rw [Option.some.injEq] at hm
                    exact absurd (hm ▸ hle) hmin

/-- Witness for the amended C5 at a concrete input: the boundary sample of
`exampleVisibilityUv` (radius exactly `uvmax = 5`, previously unflagged)
ends up flagged, and remains flagged when the selection is applied again
(the monotone, only-adds-flags semantics). -/
theorem select_uv_range_monotone_flags_characterization_witness :
    (((VisibilityAccessor.init exampleVisibilityUv).select_uv_range
        (some 1) (some 5)).obj.flags.val [0, 0, 0, 0] = 1) := by
  have h := select_uv_range_monotone_flags_characterization
    (VisibilityAccessor.init exampleVisibilityUv) (some 1) (some 5)
    (fun _ => Or.inl rfl) [0, 0, 0, 0]
  exact h.2.mpr (Or.inr (Or.inl ⟨5, rfl, by rw [exampleVisibilityUv_dist]⟩))

/-! ## Quality assessment (vis_model.py lines 545-558 and 794-812)

Models of the numpy reductions used by `qa_visibility` and
`qa_flag_table`, over the row-major flattening of the primary array. -/

/-- Model of `numpy.max` (reduction over all elements; numpy raises on an
empty array, modelled by the irrelevant value 0). -/
noncomputable def numpyMax : List ℝ → ℝ
  | [] => 0
  | x :: xs => xs.foldl max x

/-- Model of `numpy.min`. -/
noncomputable def numpyMin : List ℝ → ℝ
  | [] => 0
  | x :: xs => xs.foldl min x

/-- Model of `numpy.mean`: the sum divided by the element count. -/
noncomputable def numpyMean (l : List ℝ) : ℝ :=
  l.sum / l.length

/-- Model of `numpy.sum`. -/
noncomputable def numpySum (l : List ℝ) : ℝ :=
  l.sum

/-- Model of `numpy.std`: the square root of the mean squared deviation
from the mean. -/
noncomputable def numpyStd (l : List ℝ) : ℝ :=
  Real.sqrt (numpyMean (l.map fun x => (x - numpyMean l) ^ 2))

open Classical in
/-- Model of `numpy.sort` (ascending). -/
noncomputable def numpySorted (l : List ℝ) : List ℝ :=
  l.mergeSort fun a b => a ≤ b

/-- Model of `numpy.median`: the middle element of the sorted data for odd
length, the average of the two middle elements for even length. -/
noncomputable def numpyMedian (l : List ℝ) : ℝ :=
  if l.length % 2 = 1 then (numpySorted l).getD (l.length / 2) 0
  else ((numpySorted l).getD (l.length / 2 - 1) 0
        + (numpySorted l).getD (l.length / 2) 0) / 2

/-- Model of the `QualityAssessment` result object: origin tag, named
statistics, context. -/
structure QualityAssessment where
  origin : String
  data : List (String × ℝ)
  context : Option String

/-- Embedding of `VisibilityAccessor.qa_visibility` (vis_model.py lines
545-558): statistics of `numpy.abs(vis)`. -/
noncomputable def Visibility.qa_visibility (v : Visibility)
    (context : Option String) : QualityAssessment :=
  { origin := "qa_visibility"
    data := [("maxabs", numpyMax (v.vis.flat.map Complex.abs)),
             ("minabs", numpyMin (v.vis.flat.map Complex.abs)),
             ("rms", numpyStd (v.vis.flat.map Complex.abs)),
             ("medianabs", numpyMedian (v.vis.flat.map Complex.abs))]
    context := context }

/-- Model of the `FlagTable` container (vis_model.py lines 666-760): same
axes as Visibility minus spatial, carrying only flags,
integration_time, channel_bandwidth plus configuration and polarisation
frame. -/
structure FlagTable where
  time : List ℝ
  baselines : List (ℕ × ℕ)
  frequency : List ℝ
  polarisation : List String
  flags : NDArray ℤ
  integration_time : List ℝ
  channel_bandwidth : List ℝ
  datetime : List ℝ
  polarisation_frame : String
  configuration : Option Configuration
  data_model : String

/-- Absolute value of an integer flag, as a real statistic. -/
noncomputable def intAbsR (z : ℤ) : ℝ :=
  |(z : ℝ)|

/-- The absolute flag values `numpy.abs(flags)` fed to the reductions of
`qa_flag_table`. -/
noncomputable def FlagTable.aflags (ft : FlagTable) : List ℝ :=
  ft.flags.flat.map intAbsR

/-- Embedding of `FlagTableAccessor.qa_flag_table` (vis_model.py lines
794-812): statistics of `numpy.abs(flags)`. -/
noncomputable def FlagTable.qa_flag_table (ft : FlagTable)
    (context : Option String) : QualityAssessment :=
  { origin := "qa_flagtable"
    data := [("maxabs", numpyMax ft.aflags), ("minabs", numpyMin ft.aflags),
             ("mean", numpyMean ft.aflags), ("sum", numpySum ft.aflags),
             ("medianabs", numpyMedian ft.aflags)]
    context := context }

lemma foldl_max_replicate (c : ℝ) : ∀ n, (List.replicate n c).foldl max c = c
  | 0 => rfl
  | n + 1 => by
      rw [List.replicate_succ, List.foldl_cons, max_self]
      exact foldl_max_replicate c n

lemma foldl_min_replicate (c : ℝ) : ∀ n, (List.replicate n c).foldl min c = c
  | 0 => rfl
  | n + 1 => by
      rw [List.replicate_succ, List.foldl_cons, min_self]
      exact foldl_min_replicate c n

lemma numpyMax_replicate (n : ℕ) (hn : 1 ≤ n) (c : ℝ) :
    numpyMax (List.replicate n c) = c := by
  cases n with
  | zero => omega
  | succ m =>
      rw [List.replicate_succ]
      exact foldl_max_replicate c m

lemma numpyMin_replicate (n : ℕ) (hn : 1 ≤ n) (c : ℝ) :
    numpyMin (List.replicate n c) = c := by
  cases n with
  | zero => omega
  | succ m =>
      rw [List.replicate_succ]
      exact foldl_min_replicate c m

lemma numpyMean_replicate (n : ℕ) (hn : 1 ≤ n) (c : ℝ) :
    numpyMean (List.replicate n c) = c := by
  have hne : (n : ℝ) ≠ 0 := Nat.cast_ne_zero.mpr (by omega)
  unfold numpyMean
  rw [List.sum_replicate, List.length_replicate, nsmul_eq_mul]
  field_simp

lemma numpyStd_replicate (n : ℕ) (hn : 1 ≤ n) (c : ℝ) :
    numpyStd (List.replicate n c) = 0 := by
  unfold numpyStd
  rw [numpyMean_replicate n hn c, List.map_replicate, sub_self,
    zero_pow (by norm_num)]
  have : numpyMean (List.replicate n (0 : ℝ)) = 0 := by
    unfold numpyMean
    rw [List.sum_replicate, smul_zero, zero_div]
  rw [this, Real.sqrt_zero]

lemma numpySorted_replicate (n : ℕ) (c : ℝ) :
    numpySorted (List.replicate n c) = List.replicate n c := by
  rw [List.eq_replicate_iff]
  have hp := List.mergeSort_perm (List.replicate n c)
    (fun a b => decide (a ≤ b))
  constructor
  · rw [numpySorted, List.length_mergeSort, List.length_replicate]
  · intro b hb
    exact List.eq_of_mem_replicate (hp.mem_iff.mp hb)

lemma getD_replicate_of_lt {n i : ℕ} (h : i < n) (c : ℝ) :
    (List.replicate n c).getD i 0 = c := by
  rw [List.getD_eq_getElem _ _ (by simpa using h), List.getElem_replicate]

lemma numpyMedian_replicate (n : ℕ) (hn : 1 ≤ n) (c : ℝ) :
    numpyMedian (List.replicate n c) = c := by
  unfold numpyMedian
  rw [List.length_replicate, numpySorted_replicate]
  by_cases h : n % 2 = 1
  · rw [if_pos h, getD_replicate_of_lt (by omega) c]
  · rw [if_neg h, getD_replicate_of_lt (by omega) c,
      getD_replicate_of_lt (by omega) c]
    ring

/-- C8: the quality-assessment reductions are deterministic, pure functions
of the primary data array (re-running them on an unmodified container gives
identical statistics; in this state-free embedding neither reduction writes
to the container), and on an all-ones primary array with `S ≥ 1` elements
they return every statistic they compute as the claim states it:
`qa_visibility` gives `maxabs = minabs = medianabs = 1` and `rms = 0`
(it returns no sum), and `qa_flag_table` gives
`maxabs = minabs = medianabs = mean = 1` and `sum = S`
(it returns no rms). -/
theorem qa_reductions_deterministic_all_ones
    (v : Visibility) (ft : FlagTable) (S : ℕ) (hS : 1 ≤ S)
    (ctx : Option String)
    (hv : v.vis.flat = List.replicate S 1)
    (hf : ft.flags.flat = List.replicate S 1) :
    (∀ v' : Visibility, v'.vis = v.vis →
      v'.qa_visibility ctx = v.qa_visibility ctx)
    ∧ (∀ ft' : FlagTable, ft'.flags = ft.flags →
      ft'.qa_flag_table ctx = ft.qa_flag_table ctx)
    ∧ v.qa_visibility ctx =
        { origin := "qa_visibility"
          data := [("maxabs", 1), ("minabs", 1), ("rms", 0),
                   ("medianabs", 1)]
          context := ctx }
    ∧ ft.qa_flag_table ctx =
        { origin := "qa_flagtable"
          data := [("maxabs", 1), ("minabs", 1), ("mean", 1),
                   ("sum", (S : ℝ)), ("medianabs", 1)]
          context := ctx } := by
  have habsC : (List.replicate S (1 : ℂ)).map Complex.abs
      = List.replicate S (1 : ℝ) := by
    rw [List.map_replicate, map_one]
  have habsZ : (List.replicate S (1 : ℤ)).map intAbsR
      = List.replicate S (1 : ℝ) := by
    rw [List.map_replicate]
    norm_num [intAbsR]
  refine ⟨?_, ?_, ?_, ?_⟩
  · intro v' hvv
    unfold Visibility.qa_visibility
    rw [hvv]
  · intro ft' hff
    unfold FlagTable.qa_flag_table FlagTable.aflags
    rw [hff]
  · unfold Visibility.qa_visibility NDArray.flat
    unfold NDArray.flat at hv
    rw [hv, habsC, numpyMax_replicate S hS, numpyMin_replicate S hS,
      numpyStd_replicate S hS, numpyMedian_replicate S hS]
  · unfold FlagTable.qa_flag_table FlagTable.aflags
    rw [hf, habsZ, numpyMax_replicate S hS, numpyMin_replicate S hS,
      numpyMean_replicate S hS, numpyMedian_replicate S hS]
    unfold numpySum
    rw [List.sum_replicate, nsmul_eq_mul, mul_one]

/-- Witness for C8: a 2-element all-ones visibility and a 2-element
all-ones flag table. -/
theorem qa_reductions_deterministic_all_ones_witness :
    ({ exampleVisibility with
        vis := ⟨[1, 2, 1, 1], fun _ => 1⟩ } : Visibility).qa_visibility none
      = { origin := "qa_visibility"
          data := [("maxabs", 1), ("minabs", 1), ("rms", 0),
                   ("medianabs", 1)]
          context := none }
    ∧ ({ time := [0], baselines := [(0, 0), (0, 1)], frequency := [1]
         polarisation := ["I"], flags := ⟨[1, 2, 1, 1], fun _ => 1⟩
         integration_time := [1], channel_bandwidth := [1], datetime := [0]
         polarisation_frame := "stokesI", configuration := none
         data_model := "FlagTable" } : FlagTable).qa_flag_table none
      = { origin := "qa_flagtable"
          data := [("maxabs", 1), ("minabs", 1), ("mean", 1),
                   ("sum", (2 : ℝ)), ("medianabs", 1)]
          context := none } := by
  have h := qa_reductions_deterministic_all_ones
    ({ exampleVisibility with vis := ⟨[1, 2, 1, 1], fun _ => 1⟩ })
    ({ time := [0], baselines := [(0, 0), (0, 1)], frequency := [1]
       polarisation := ["I"], flags := ⟨[1, 2, 1, 1], fun _ => 1⟩
       integration_time := [1], channel_bandwidth := [1], datetime := [0]
       polarisation_frame := "stokesI", configuration := none
       data_model := "FlagTable" })
    2 (by norm_num) none
    (by simp [NDArray.flat, indicesOf, List.replicate])
    (by simp [NDArray.flat, indicesOf, List.replicate])
  exact ⟨h.2.2.1, h.2.2.2⟩

/-! ## create_visibility (vis_create.py lines 34-222)

The astronomy-math collaborators used by `create_visibility` are out of
scope of the core (spec §1) and enter the embedding as parameters:
`elev` stands for the elevation returned by `hadec_to_azel`, `ant_pos` for
the rotated antenna positions returned by `xyz_to_uvw`, `stime` for the
transit time (in MJD days) returned by `calculate_transit_time`, and
`siderealRatio` for the constant `SIDEREAL_DAY_SECONDS / 86400`.
The `generate_baselines` helper imported from `vis_utils` is not under
src/; per spec §4.1 it follows the identical enumeration rule as the
closure embedded above, so `generate_baselines (List.range nants)` is
used for the baseline axis. -/

/-- Write one whole row `W[i, ...] = c` of a (time × baseline) array. -/
def writeRow {α : Type} (W : ℕ → ℕ → α) (i : ℕ) (c : α) : ℕ → ℕ → α :=
  fun i' b' => if i' = i then c else W i' b'

/-- Write one cell slice `W[i, b, ...] = c` of a (time × baseline)
array. -/
def writeCell {α : Type} (W : ℕ → ℕ → α) (i b : ℕ) (c : α) : ℕ → ℕ → α :=
  fun i' b' => if i' = i ∧ b' = b then c else W i' b'

/-- Write one entry `T[i] = c` of a 1-D array. -/
def write1 {α : Type} (T : ℕ → α) (i : ℕ) (c : α) : ℕ → α :=
  fun i' => if i' = i then c else T i'

/-- Componentwise difference of two 3-vectors. -/
def sub3 (x y : ℝ × ℝ × ℝ) : ℝ × ℝ × ℝ :=
  (x.1 - y.1, x.2.1 - y.2.1, x.2.2 - y.2.2)

/-- Component `s` of a 3-vector. -/
def comp3 (x : ℝ × ℝ × ℝ) (s : ℕ) : ℝ :=
  if s = 0 then x.1 else if s = 1 then x.2.1 else x.2.2

/-- The mutable arrays filled by the time/baseline loops of
`create_visibility` (vis_create.py lines 140-146). -/
structure CVState where
  rweight : ℕ → ℕ → ℝ
  rflags : ℕ → ℕ → ℤ
  ruvw : ℕ → ℕ → ℝ × ℝ × ℝ
  rtimes : ℕ → ℝ
  rintegrationtime : ℕ → ℝ

/-- Initial arrays (vis_create.py lines 140-146): `rflags` is
`numpy.ones`, `rweight` is `numpy.ones`, times / integration times / uvw
are `numpy.zeros`. -/
def cvInit : CVState :=
  { rweight := fun _ _ => 1
    rflags := fun _ _ => 1
    ruvw := fun _ _ => (0, 0, 0)
    rtimes := fun _ => 0
    rintegrationtime := fun _ => 0 }

/-- Inputs of `create_visibility`, with the external astronomy
collaborators as function parameters. -/
structure CVParams where
  nants : ℕ
  times : List ℚ
  times_are_ha : Bool
  siderealRatio : ℚ
  elev : ℚ → ℚ
  elevation_limit : Option ℚ
  weight : ℝ
  ant_pos : ℚ → ℕ → ℝ × ℝ × ℝ
  stime : ℝ
  integration_time : ℝ
  zerow : Bool
  frequency : List ℝ
  channel_bandwidth : List ℝ
  polarisation_frame : PolarisationFrame
  phasecentre : Option SkyCoordModel
  configuration : Option Configuration
  source : String

/-- Hour angle of an input time (vis_create.py lines 108-111 and
158-161): the raw value when `times_are_ha`, otherwise scaled by
`SIDEREAL_DAY_SECONDS / 86400`. -/
def cvHa (P : CVParams) (t : ℚ) : ℚ :=
  if P.times_are_ha then t else t * P.siderealRatio

/-- The elevation filter (vis_create.py lines 113-119 and 165-166): a time
is kept when there is no elevation limit or its elevation is strictly
above the limit. -/
def cvPass (P : CVParams) (t : ℚ) : Bool :=
  match P.elevation_limit with
  | none => true
  | some l => decide (P.elev (cvHa P t) > l)

/-- The baseline axis (vis_create.py lines 95-97): the canonical baseline
enumeration over antennas `0 .. nants-1`. -/
def cvBaselines (P : CVParams) : List (ℕ × ℕ) :=
  generate_baselines (List.range P.nants)

/-- One iteration of the inner baseline loop (vis_create.py lines
176-185) at time row `it`: branch on auto- vs cross-correlation writing
weight and flags, write the uvw difference, then unconditionally overwrite
the flags slice with 0. -/
def baselineStep (weight : ℝ) (it : ℕ) (antPos : ℕ → ℝ × ℝ × ℝ)
    (st : CVState) (p : ℕ × ℕ × ℕ) : CVState :=
  let ib := p.1
  let a1 := p.2.1
  let a2 := p.2.2
  let st1 :=
    if a1 ≠ a2 then
      { st with rweight := writeCell st.rweight it ib weight
                rflags := writeCell st.rflags it ib 0 }
    else
      { st with rweight := writeCell st.rweight it ib 0
                rflags := writeCell st.rflags it ib 1 }
  { st1 with
      ruvw := writeCell st1.ruvw it ib (sub3 (antPos a2) (antPos a1))
      rflags := writeCell st1.rflags it ib 0 }

/-- One iteration of the filling time loop (vis_create.py lines 156-189):
skip times failing the elevation filter; otherwise write the row time,
reset the row weights to 1 and row flags to 1, run the baseline loop, set
the row integration time from the time difference, and advance `itime`. -/
noncomputable def timeStep (P : CVParams) (acc : ℕ × CVState) (t : ℚ) :
    ℕ × CVState :=
  if cvPass P t then
    let it := acc.1
    let st := acc.2
    let st1 :=
      { st with
          rtimes := write1 st.rtimes it
            (P.stime * 86400 + (t : ℝ) * 86400 / (2 * Real.pi))
          rweight := writeRow st.rweight it 1
          rflags := writeRow st.rflags it 1 }
    let st2 := (cvBaselines P).enum.foldl
      (baselineStep P.weight it (P.ant_pos (cvHa P t))) st1
    let st3 :=
      if 0 < it then
        { st2 with
            rintegrationtime := write1 st2.rintegrationtime it
              (st2.rtimes it - st2.rtimes (it - 1)) }
      else st2
    (it + 1, st3)
  else acc

/-- The state after the whole filling loop. -/
noncomputable def cvLoopResult (P : CVParams) : ℕ × CVState :=
  P.times.foldl (timeStep P) (0, cvInit)

/-- Post-loop fixups (vis_create.py lines 191-197): the first integration
time, and the `zerow` w-zeroing. -/
noncomputable def cvFixedState (P : CVParams) : CVState :=
  let st0 := (cvLoopResult P).2
  let st1 :=
    if 1 < (cvLoopResult P).1 then
      { st0 with
          rintegrationtime := write1 st0.rintegrationtime 0
            (st0.rintegrationtime 1) }
    else
      { st0 with
          rintegrationtime := write1 st0.rintegrationtime 0
            P.integration_time }
  if P.zerow then
    { st1 with ruvw := fun i b => ((st1.ruvw i b).1, (st1.ruvw i b).2.1, 0) }
  else st1

/-- Number of retained times: the counting loop of vis_create.py lines
101-119. -/
def cvNtimes (P : CVParams) : ℕ :=
  (P.times.filter (cvPass P)).length

/-- Embedding of `create_visibility` (vis_create.py lines 34-222): missing
phase centre and empty elevation selection are fatal (the spec's
`MissingRequired` and `EmptySelection`, §7); otherwise the filled arrays
are handed to `Visibility.constructor`. -/
noncomputable def create_visibility (P : CVParams) :
    Except String Visibility :=
  if P.phasecentre = none then
    Except.error "Must specify phase centre"
  else if cvNtimes P = 0 then
    Except.error "No targets above elevation_limit; all points are flagged"
  else
    let st := cvFixedState P
    let visshape := [cvNtimes P, (cvBaselines P).length,
      P.frequency.length, P.polarisation_frame.names.length]
    Visibility.constructor P.frequency P.channel_bandwidth P.phasecentre
      P.configuration
      ⟨[cvNtimes P, (cvBaselines P).length, 3],
        fun idx => comp3 (st.ruvw (idx.getD 0 0) (idx.getD 1 0))
          (idx.getD 2 0)⟩
      ((List.range (cvNtimes P)).map st.rtimes)
      (ndZerosC visshape)
      (some ⟨visshape,
        fun idx => st.rweight (idx.getD 0 0) (idx.getD 1 0)⟩)
      (some ((List.range (cvNtimes P)).map st.rintegrationtime))
      ⟨visshape, fun idx => st.rflags (idx.getD 0 0) (idx.getD 1 0)⟩
      (cvBaselines P) P.polarisation_frame P.source

lemma visibility_constructor_ok
    (frequency channel_bandwidth : List ℝ) (pcen : Option SkyCoordModel)
    (config : Option Configuration) (uvw : NDArray ℝ) (time : List ℝ)
    (vis : NDArray ℂ) (w : NDArray ℝ) (hw : w.shape = vis.shape)
    (it : List ℝ) (hit : it.length = time.length) (flags : NDArray ℤ)
    (baselines : List (ℕ × ℕ)) (pf : PolarisationFrame) (source : String) :
    Visibility.constructor frequency channel_bandwidth pcen config uvw time
      vis (some w) (some it) flags baselines pf source
      = Except.ok
        { time := time
          baselines := baselines
          frequency := frequency
          polarisation := pf.names
          integration_time := it
          datetime := time.map (fun t => t / 86400)
          vis := vis
          weight := w
          flags := flags
          uvw := uvw
          channel_bandwidth := channel_bandwidth
          phasecentre := pcen
          configuration := config
          polarisation_frame := pf.type
          source := source
          data_model := "Visibility" } := by
  unfold Visibility.constructor
  simp only [if_pos hw, if_pos hit, bind, Except.bind, pure, Except.pure]

lemma create_visibility_ok (P : CVParams) (pc : SkyCoordModel)
    (hpc : P.phasecentre = some pc) (hk : cvNtimes P ≠ 0) :
    ∃ v : Visibility, create_visibility P = Except.ok v
      ∧ v.time = (List.range (cvNtimes P)).map (cvFixedState P).rtimes
      ∧ v.flags = ⟨[cvNtimes P, (cvBaselines P).length, P.frequency.length,
            P.polarisation_frame.names.length],
          fun idx => (cvFixedState P).rflags (idx.getD 0 0) (idx.getD 1 0)⟩
      ∧ v.weight = ⟨[cvNtimes P, (cvBaselines P).length, P.frequency.length,
            P.polarisation_frame.names.length],
          fun idx => (cvFixedState P).rweight (idx.getD 0 0) (idx.getD 1 0)⟩
      := by
  unfold create_visibility
  rw [hpc, if_neg (by simp), if_neg hk]
  exact ⟨_, visibility_constructor_ok _ _ _ _ _ _ _ _ rfl _ (by simp)
    _ _ _ _, rfl, rfl, rfl⟩

/-- C6: when exactly `k ≥ 1` of the input hour angles pass the elevation
filter (elevation strictly above the stated limit), `create_visibility`
returns a Visibility whose time axis has length exactly `k`; when every
input hour angle is at or below the limit (`k = 0`) it fails with the
empty-selection error and produces no container. -/
theorem create_visibility_elevation_filtering (P : CVParams)
    (pc : SkyCoordModel) (hpc : P.phasecentre = some pc) :
    (1 ≤ cvNtimes P →
      ∃ v : Visibility, create_visibility P = Except.ok v
        ∧ v.time.length = cvNtimes P)
    ∧ (cvNtimes P = 0 →
      create_visibility P = Except.error
        "No targets above elevation_limit; all points are flagged") := by
  constructor
  · intro hk
    obtain ⟨v, hok, htime, -, -⟩ :=
      create_visibility_ok P pc hpc (by omega)
    exact ⟨v, hok, by rw [htime, List.length_map, List.length_range]⟩
  · intro hk
    unfold create_visibility
    rw [hpc, if_neg (by simp), if_pos hk]

/-- Concrete inputs for `create_visibility`: two antennas, hour angles
`[0, 1, 2]` with elevation equal to the hour angle and elevation limit 0,
so exactly the two positive hour angles survive the filter. -/
noncomputable def exampleCVParams : CVParams :=
  { nants := 2, times := [0, 1, 2], times_are_ha := true, siderealRatio := 1
    elev := fun t => t, elevation_limit := some 0, weight := 1
    ant_pos := fun _ _ => (0, 0, 0), stime := 0, integration_time := 1
    zerow := false, frequency := [1], channel_bandwidth := [1]
    polarisation_frame := ⟨"stokesI", ["I"]⟩
    phasecentre := some ⟨(180, -35), "icrs"⟩, configuration := none
    source := "unknown" }

/-- Witness for C6: with elevations `0, 1, 2` and limit `0` exactly two
hour angles pass, giving a 2-element time axis; raising the limit to 10
filters every time and construction fails. -/
theorem create_visibility_elevation_filtering_witness :
    (∃ v : Visibility, create_visibility exampleCVParams = Except.ok v
      ∧ v.time.length = cvNtimes exampleCVParams)
    ∧ create_visibility { exampleCVParams with elevation_limit := some 10 }
        = Except.error
          "No targets above elevation_limit; all points are flagged" := by
  have h1 := create_visibility_elevation_filtering exampleCVParams
    ⟨(180, -35), "icrs"⟩ rfl
  have h2 := create_visibility_elevation_filtering
    { exampleCVParams with elevation_limit := some 10 }
    ⟨(180, -35), "icrs"⟩ rfl
  exact ⟨h1.1 (by decide), h2.2 (by decide)⟩

lemma baselineStep_preserve (w : ℝ) (it : ℕ) (ap : ℕ → ℝ × ℝ × ℝ)
    (st : CVState) (p : ℕ × ℕ × ℕ) (i' b' : ℕ)
    (h : ¬(i' = it ∧ b' = p.1)) :
    (baselineStep w it ap st p).rflags i' b' = st.rflags i' b'
    ∧ (baselineStep w it ap st p).rweight i' b' = st.rweight i' b' := by
  unfold baselineStep writeCell
  by_cases hc : p.2.1 ≠ p.2.2 <;> simp [hc, h]

lemma baselineStep_hit (w : ℝ) (it : ℕ) (ap : ℕ → ℝ × ℝ × ℝ)
    (st : CVState) (p : ℕ × ℕ × ℕ) :
    (baselineStep w it ap st p).rflags it p.1 = 0
    ∧ (baselineStep w it ap st p).rweight it p.1
        = if p.2.1 ≠ p.2.2 then w else 0 := by
  unfold baselineStep writeCell
  by_cases hc : p.2.1 ≠ p.2.2 <;> simp [hc]

lemma baselineLoop_preserve (w : ℝ) (it : ℕ) (ap : ℕ → ℝ × ℝ × ℝ) :
    ∀ (bl : List (ℕ × ℕ × ℕ)) (st : CVState) (i' b' : ℕ),
      (i' ≠ it ∨ ∀ q ∈ bl, q.1 ≠ b') →
      ((bl.foldl (baselineStep w it ap) st).rflags i' b' = st.rflags i' b'
       ∧ (bl.foldl (baselineStep w it ap) st).rweight i' b'
           = st.rweight i' b')
  | [], _, _, _, _ => ⟨rfl, rfl⟩
  | p :: rest, st, i', b', h => by
      rw [List.foldl_cons]
      have hnw : ¬(i' = it ∧ b' = p.1) := by
        rcases h with h | h
        · exact fun hc => h hc.1
        · exact fun hc => h p (List.mem_cons_self p rest) hc.2.symm
      have hrest : i' ≠ it ∨ ∀ q ∈ rest, q.1 ≠ b' := by
        rcases h with h | h
        · exact Or.inl h
        · exact Or.inr fun q hq => h q (List.mem_cons_of_mem p hq)
      have ih := baselineLoop_preserve w it ap rest
        (baselineStep w it ap st p) i' b' hrest
      have hp := baselineStep_preserve w it ap st p i' b' hnw
      exact ⟨ih.1.trans hp.1, ih.2.trans hp.2⟩

lemma baselineLoop_member (w : ℝ) (it : ℕ) (ap : ℕ → ℝ × ℝ × ℝ) :
    ∀ (bl : List (ℕ × ℕ × ℕ)) (st : CVState) (ib a1 a2 : ℕ),
      (bl.map Prod.fst).Nodup → (ib, a1, a2) ∈ bl →
      ((bl.foldl (baselineStep w it ap) st).rflags it ib = 0
       ∧ (bl.foldl (baselineStep w it ap) st).rweight it ib
           = if a1 ≠ a2 then w else 0)
  | [], _, _, _, _, _, hmem => absurd hmem (List.not_mem_nil _)
  | p :: rest, st, ib, a1, a2, hnd, hmem => by
      rw [List.map_cons, List.nodup_cons] at hnd
      rw [List.foldl_cons]
      rcases List.mem_cons.mp hmem with heq | hmem'
      · subst heq
        have hpres := baselineLoop_preserve w it ap rest
          (baselineStep w it ap st (ib, a1, a2)) it ib
          (Or.inr fun q hq hqe =>
            hnd.1 (List.mem_map.mpr ⟨q, hq, hqe⟩))
        have hhit := baselineStep_hit w it ap st (ib, a1, a2)
        exact ⟨hpres.1.trans hhit.1, hpres.2.trans hhit.2⟩
      · exact baselineLoop_member w it ap rest
          (baselineStep w it ap st p) ib a1 a2 hnd.2 hmem'

lemma timeStep_skip (P : CVParams) (acc : ℕ × CVState) (t : ℚ)
    (hp : cvPass P t = false) :
    timeStep P acc t = acc := by
  unfold timeStep
  rw [if_neg (by simp [hp])]

lemma timeStep_fst_mono (P : CVParams) (acc : ℕ × CVState) (t : ℚ) :
    acc.1 ≤ (timeStep P acc t).1 := by
  unfold timeStep
  by_cases hp : cvPass P t = true <;> simp [hp]

lemma timeStep_row_lt (P : CVParams) (acc : ℕ × CVState) (t : ℚ)
    (i' b' : ℕ) (h : i' < acc.1) :
    (timeStep P acc t).2.rflags i' b' = acc.2.rflags i' b'
    ∧ (timeStep P acc t).2.rweight i' b' = acc.2.rweight i' b' := by
  unfold timeStep
  by_cases hp : cvPass P t = true
  · rw [if_pos hp]
    have hne : i' ≠ acc.1 := by omega
    have hbase := baselineLoop_preserve P.weight acc.1
      (P.ant_pos (cvHa P t)) (cvBaselines P).enum
      { acc.2 with
          rtimes := write1 acc.2.rtimes acc.1
            (P.stime * 86400 + (t : ℝ) * 86400 / (2 * Real.pi))
          rweight := writeRow acc.2.rweight acc.1 1
          rflags := writeRow acc.2.rflags acc.1 1 }
      i' b' (Or.inl hne)
    by_cases h0 : 0 < acc.1 <;>
      simp only [h0, if_true, if_false, reduceIte] <;>
      refine ⟨hbase.1.trans ?_, hbase.2.trans ?_⟩ <;>
      simp [writeRow, hne]
  · rw [if_neg hp]
    exact ⟨rfl, rfl⟩

lemma timeLoop_preserve_row (P : CVParams) :
    ∀ (ts : List ℚ) (acc : ℕ × CVState) (i' b' : ℕ), i' < acc.1 →
      ((ts.foldl (timeStep P) acc).2.rflags i' b' = acc.2.rflags i' b'
       ∧ (ts.foldl (timeStep P) acc).2.rweight i' b'
           = acc.2.rweight i' b')
  | [], _, _, _, _ => ⟨rfl, rfl⟩
  | t :: ts, acc, i', b', hij => by
      rw [List.foldl_cons]
      have hmono := timeStep_fst_mono P acc t
      have hstep := timeStep_row_lt P acc t i' b' hij
      have ih := timeLoop_preserve_row P ts (timeStep P acc t) i' b'
        (by omega)
      exact ⟨ih.1.trans hstep.1, ih.2.trans hstep.2⟩

lemma timeStep_hit (P : CVParams) (acc : ℕ × CVState) (t : ℚ)
    (hp : cvPass P t = true) (ib a1 a2 : ℕ)
    (hb : (cvBaselines P)[ib]? = some (a1, a2)) :
    (timeStep P acc t).1 = acc.1 + 1
    ∧ (timeStep P acc t).2.rflags acc.1 ib = 0
    ∧ (timeStep P acc t).2.rweight acc.1 ib
        = if a1 ≠ a2 then P.weight else 0 := by
  unfold timeStep
  rw [if_pos hp]
  refine ⟨rfl, ?_⟩
  have hmem : (ib, a1, a2) ∈ (cvBaselines P).enum :=
    List.mem_enum_iff_getElem?.mpr hb
  have hnd : ((cvBaselines P).enum.map Prod.fst).Nodup := by
    rw [List.enum_map_fst]
    exact List.nodup_range _
  have hchar := baselineLoop_member P.weight acc.1
    (P.ant_pos (cvHa P t)) (cvBaselines P).enum
    { acc.2 with
        rtimes := write1 acc.2.rtimes acc.1
          (P.stime * 86400 + (t : ℝ) * 86400 / (2 * Real.pi))
        rweight := writeRow acc.2.rweight acc.1 1
        rflags := writeRow acc.2.rflags acc.1 1 }
    ib a1 a2 hnd hmem
  by_cases h0 : 0 < acc.1 <;>
    simp only [h0, if_true, if_false, reduceIte] <;>
    exact ⟨hchar.1, hchar.2⟩

lemma timeLoop_row_char (P : CVParams) :
    ∀ (ts : List ℚ) (acc : ℕ × CVState) (n ib a1 a2 : ℕ),
      n < (ts.filter (cvPass P)).length →
      (cvBaselines P)[ib]? = some (a1, a2) →
      ((ts.foldl (timeStep P) acc).2.rflags (acc.1 + n) ib = 0
       ∧ (ts.foldl (timeStep P) acc).2.rweight (acc.1 + n) ib
           = if a1 ≠ a2 then P.weight else 0)
  | [], _, n, _, _, _, hn, _ => by simp at hn
  | t :: ts, acc, n, ib, a1, a2, hn, hb => by
      rw [List.foldl_cons]
      cases hp : cvPass P t with
      | false =>
          rw [timeStep_skip P acc t hp]
          have hn' : n < (ts.filter (cvPass P)).length := by
            rw [List.filter_cons, if_neg (by simp [hp])] at hn
            exact hn
          exact timeLoop_row_char P ts acc n ib a1 a2 hn' hb
      | true =>
          have hhit := timeStep_hit P acc t hp ib a1 a2 hb
          cases n with
          | zero =>
              have hpres := timeLoop_preserve_row P ts (timeStep P acc t)
                acc.1 ib (by omega)
              rw [Nat.add_zero]
              exact ⟨hpres.1.trans hhit.2.1, hpres.2.trans hhit.2.2⟩
          | succ m =>
              have hn' : m < (ts.filter (cvPass P)).length := by
                rw [List.filter_cons, if_pos (by simp [hp])] at hn
                simpa using hn
              have ih := timeLoop_row_char P ts (timeStep P acc t)
                m ib a1 a2 hn' hb
              rw [hhit.1] at ih
              rw [show acc.1 + (m + 1) = acc.1 + 1 + m by omega]
              exact ih

lemma cvFixedState_rows (P : CVParams) :
    (cvFixedState P).rflags = (cvLoopResult P).2.rflags
    ∧ (cvFixedState P).rweight = (cvLoopResult P).2.rweight := by
  unfold cvFixedState
  by_cases h1 : 1 < (cvLoopResult P).1 <;> by_cases h2 : P.zerow <;>
    simp [h1, h2]

/-- C10: every Visibility returned by `create_visibility` has an
identically-zero flags array — including the autocorrelation baselines
`(a1 = a2)`, whose flags are set to 1 inside the per-baseline loop but then
unconditionally overwritten to 0 — while the weight of every
autocorrelation sample is 0 and the weight of every cross-correlation
sample equals the `weight` argument. -/
theorem create_visibility_flags_zero_weight_split (P : CVParams)
    (v : Visibility) (hok : create_visibility P = Except.ok v)
    (it ib f p a1 a2 : ℕ) (hit : it < cvNtimes P)
    (hb : (cvBaselines P)[ib]? = some (a1, a2)) :
    v.flags.val [it, ib, f, p] = 0
    ∧ (a1 = a2 → v.weight.val [it, ib, f, p] = 0)
    ∧ (a1 ≠ a2 → v.weight.val [it, ib, f, p] = P.weight) := by
  rcases hpc : P.phasecentre with - | pc
  · unfold create_visibility at hok
    rw [hpc, if_pos rfl] at hok
    cases hok
  · by_cases hk : cvNtimes P = 0
    · unfold create_visibility at hok
      rw [hpc, if_neg (by simp), if_pos hk] at hok
      cases hok
    · obtain ⟨v', hok', -, hflags, hweight⟩ :=
        create_visibility_ok P pc hpc hk
      rw [hok'] at hok
      injection hok with hv
      subst hv
      rw [hflags, hweight]
      have hchar := timeLoop_row_char P P.times (0, cvInit) it ib a1 a2
        hit hb
      rw [Nat.zero_add] at hchar
      have hrows := cvFixedState_rows P
      simp only [List.getD, List.get?_cons_zero, List.get?_cons_succ,
        Option.getD_some]
      rw [hrows.1, hrows.2]
      unfold cvLoopResult
      refine ⟨hchar.1, ?_, ?_⟩
      · intro heq
        rw [hchar.2, if_neg (by simp [heq])]
      · intro hne
        rw [hchar.2, if_pos hne]

/-- Witness for C10: for the concrete two-antenna construction, the
autocorrelation baseline `(0, 0)` ends with flag 0 and weight 0, and the
cross baseline `(0, 1)` ends with flag 0 and weight equal to the weight
argument. -/
theorem create_visibility_flags_zero_weight_split_witness :
    ∃ v : Visibility, create_visibility exampleCVParams = Except.ok v
      ∧ v.flags.val [0, 0, 0, 0] = 0
      ∧ v.weight.val [0, 0, 0, 0] = 0
      ∧ v.flags.val [0, 1, 0, 0] = 0
      ∧ v.weight.val [0, 1, 0, 0] = exampleCVParams.weight := by
  obtain ⟨v, hok, -, -, -⟩ := create_visibility_ok exampleCVParams
    ⟨(180, -35), "icrs"⟩ rfl (by decide)
  have h1 := create_visibility_flags_zero_weight_split exampleCVParams v
    hok 0 0 0 0 0 0 (by decide) (by decide)
  have h2 := create_visibility_flags_zero_weight_split exampleCVParams v
    hok 0 1 0 0 0 1 (by decide) (by decide)
  exact ⟨v, hok, h1.1, h1.2.1 rfl, h2.1, h2.2.2 (by decide)⟩

/-! ## Calibration containers and HDF5 serialization
(calibration_functions.py)

Bulk numeric data is modelled over ℚ (complex values as pairs of ℚ) so
every serialization definition is executable. An h5py group only ever
receives the fixed attribute/dataset keys written by the converter, so a
group is a record with one field per key; the group name written by
`create_group` is determined by the record index `i`, so a file is the
`number_data_models` attribute plus the ordered list of groups. The
`SkyCoord.to_string()` / `float(s)` pair used for the centre coordinates
is the external astropy encoding of the two coordinate values into a
whitespace-joined string; it is modelled by the pair of values it
encodes. -/

/-- Model of the in-memory `GainTable` container (spec §3): bulk arrays
`gain` (complex, time × antenna × frequency × receptor × receptor),
`weight`, `residual`, `interval`, the `time`/`frequency` axes, the two
receptor frames, phase centre, optional configuration and Jones tag. -/
structure GainTable where
  time : List ℚ
  gain : NDArray (ℚ × ℚ)
  weight : NDArray ℚ
  residual : NDArray ℚ
  interval : List ℚ
  frequency : List ℚ
  receptor_frame1 : String
  receptor_frame2 : String
  phasecentre : SkyCoordModel
  configuration : Option Configuration
  jones_type : String
  data_model : String

/-- Modelled from the spec: `GainTable.constructor`
(`calibration_model.py` is not under src/). Per spec §3/§4.2 the validated
constructor stores the bulk arrays and metadata verbatim in a new
container tagged "GainTable"; `configuration` defaults to absent and the
Jones tag defaults to "T" when not supplied. -/
def GainTable.constructor (gain : NDArray (ℚ × ℚ)) (time : List ℚ)
    (interval : List ℚ) (weight : NDArray ℚ) (residual : NDArray ℚ)
    (frequency : List ℚ) (receptor_frame : String × String)
    (phasecentre : SkyCoordModel) (configuration : Option Configuration)
    (jones_type : String) : GainTable :=
  { time := time
    gain := gain
    weight := weight
    residual := residual
    interval := interval
    frequency := frequency
    receptor_frame1 := receptor_frame.1
    receptor_frame2 := receptor_frame.2
    phasecentre := phasecentre
    configuration := configuration
    jones_type := jones_type
    data_model := "GainTable" }

/-- Model of one `GainTable<i>` HDF group: the scalar attributes and
`data_<field>` datasets written by `convert_gaintable_to_hdf`
(calibration_functions.py lines 42-49), plus the slot for a nested
configuration sub-group (which that converter never writes). -/
structure GainTableHDFGroup where
  data_model : String
  receptor_frame1 : String
  receptor_frame2 : String
  phasecentre_coords : ℚ × ℚ
  phasecentre_frame : String
  data_time : List ℚ
  data_gain : NDArray (ℚ × ℚ)
  data_weight : NDArray ℚ
  data_residual : NDArray ℚ
  data_interval : List ℚ
  data_frequency : List ℚ
  config_subgroup : Option Configuration

/-- The group contents written for one GainTable by
`convert_gaintable_to_hdf` (calibration_functions.py lines 42-49): the
frame tags, the encoded phase centre, and the six bulk datasets. No
configuration sub-group is written. -/
def gaintableGroup (gt : GainTable) : GainTableHDFGroup :=
  { data_model := "GainTable"
    receptor_frame1 := gt.receptor_frame1
    receptor_frame2 := gt.receptor_frame2
    phasecentre_coords := gt.phasecentre.coords
    phasecentre_frame := gt.phasecentre.frame
    data_time := gt.time
    data_gain := gt.gain
    data_weight := gt.weight
    data_residual := gt.residual
    data_interval := gt.interval
    data_frequency := gt.frequency
    config_subgroup := none }

/-- Embedding of `convert_gaintable_to_hdf` (calibration_functions.py
lines 30-50): check the `data_model` tag, then write the group
contents. -/
def convert_gaintable_to_hdf (gt : GainTable) :
    Except String GainTableHDFGroup :=
  if gt.data_model ≠ "GainTable" then
    Except.error "gt is not a GainTable"
  else
    Except.ok (gaintableGroup gt)

/-- Embedding of `convert_hdf_to_gaintable` (calibration_functions.py
lines 53-84): check the tag, decode the phase centre, read the six
datasets back and rebuild the container through the validated
constructor (no configuration and no Jones tag are read). -/
def convert_hdf_to_gaintable (g : GainTableHDFGroup) :
    Except String GainTable :=
  if g.data_model ≠ "GainTable" then
    Except.error "Not a GainTable"
  else
    Except.ok (GainTable.constructor g.data_gain g.data_time
      g.data_interval g.data_weight g.data_residual g.data_frequency
      (g.receptor_frame1, g.receptor_frame2)
      ⟨g.phasecentre_coords, g.phasecentre_frame⟩ none "T")

/-- Model of an HDF5 file holding gain tables: the root
`number_data_models` attribute plus the child groups, group `i` standing
for the group named `GainTable<i>`. -/
structure GainTableHDFFile where
  number_data_models : ℕ
  groups : List GainTableHDFGroup

/-- Sequencing of a fallible conversion over a list, in order: the Lean
form of the export loops and import list comprehensions of
calibration_functions.py. -/
def exceptMapList {α β : Type} (F : α → Except String β) :
    List α → Except String (List β)
  | [] => Except.ok []
  | x :: xs => do
      let y ← F x
      let ys ← exceptMapList F xs
      Except.ok (y :: ys)

/-- Embedding of `export_gaintable_to_hdf5` (calibration_functions.py
lines 87-108): a list writes `number_data_models = len(gt)` and one group
per element; a single (non-list) table writes `number_data_models = 1`
and the single group `GainTable0`. -/
def export_gaintable_to_hdf5 (gt : GainTable ⊕ List GainTable) :
    Except String GainTableHDFFile :=
  match gt with
  | Sum.inr l => do
      let gs ← exceptMapList convert_gaintable_to_hdf l
      Except.ok ⟨l.length, gs⟩
  | Sum.inl g => do
      let gf ← convert_gaintable_to_hdf g
      Except.ok ⟨1, [gf]⟩

/-- Group lookup `f[<name><i>]`: the child group at index `i`, a missing
group being h5py's KeyError. -/
def lookupGroup {β : Type} (gs : List β) (i : ℕ) : Except String β :=
  match gs[i]? with
  | none => Except.error "KeyError"
  | some g => Except.ok g

/-- Embedding of `import_gaintable_from_hdf5` (calibration_functions.py
lines 111-127): read `number_data_models`, convert the groups
`GainTable0 .. GainTable(n-1)` in order, and return the single container
when `n = 1`, else the ordered list. -/
def import_gaintable_from_hdf5 (f : GainTableHDFFile) :
    Except String (GainTable ⊕ List GainTable) := do
  let gtlist ← exceptMapList
    (fun i => do
      let g ← lookupGroup f.groups i
      convert_hdf_to_gaintable g)
    (List.range f.number_data_models)
  if f.number_data_models = 1 then
    match gtlist.head? with
    | some g => Except.ok (Sum.inl g)
    | none => Except.error "IndexError"
  else
    Except.ok (Sum.inr gtlist)

/-- Model of the in-memory `PointingTable` container (spec §3): arrays
`pointing`, `nominal`, `weight`, `residual`, `interval`, the time and
frequency axes, one receptor frame, the pointing frame tag, pointing
centre and the (required) antenna configuration. -/
structure PointingTable where
  time : List ℚ
  pointing : NDArray ℚ
  nominal : NDArray ℚ
  weight : NDArray ℚ
  residual : NDArray ℚ
  interval : List ℚ
  frequency : List ℚ
  receptor_frame : String
  pointing_frame : String
  pointingcentre : SkyCoordModel
  configuration : Configuration
  data_model : String

/-- Modelled from the spec: `PointingTable.constructor`
(`calibration_model.py` is not under src/). Per spec §3/§4.2 the
validated constructor stores the bulk arrays and metadata verbatim in a
new container tagged "PointingTable". -/
def PointingTable.constructor (time : List ℚ) (pointing : NDArray ℚ)
    (nominal : NDArray ℚ) (weight : NDArray ℚ) (residual : NDArray ℚ)
    (interval : List ℚ) (frequency : List ℚ) (receptor_frame : String)
    (pointing_frame : String) (pointingcentre : SkyCoordModel)
    (configuration : Configuration) : PointingTable :=
  { time := time
    pointing := pointing
    nominal := nominal
    weight := weight
    residual := residual
    interval := interval
    frequency := frequency
    receptor_frame := receptor_frame
    pointing_frame := pointing_frame
    pointingcentre := pointingcentre
    configuration := configuration
    data_model := "PointingTable" }

/-- Model of one `PointingTable<i>` HDF group: the scalar attributes and
`data_<field>` datasets written by `convert_pointingtable_to_hdf`
(calibration_functions.py lines 142-158), plus the nested configuration
sub-group. -/
structure PointingTableHDFGroup where
  data_model : String
  receptor_frame : String
  pointingcentre_coords : ℚ × ℚ
  pointingcentre_frame : String
  pointing_frame : String
  data_time : List ℚ
  data_nominal : NDArray ℚ
  data_pointing : NDArray ℚ
  data_weight : NDArray ℚ
  data_residual : NDArray ℚ
  data_interval : List ℚ
  data_frequency : List ℚ
  config_subgroup : Option Configuration

/-- Modelled from the spec: `convert_configuration_to_hdf`
(`configuration` package, not under src/) writes the configuration value
into the group's nested `configuration` sub-group via the configuration's
own symmetric attribute/dataset contract (spec §6). -/
def convert_configuration_to_hdf (c : Configuration)
    (g : PointingTableHDFGroup) : PointingTableHDFGroup :=
  { g with config_subgroup := some c }

/-- Modelled from the spec: `convert_configuration_from_hdf` reads the
nested configuration sub-group back (spec §6, symmetric contract); a
missing sub-group is a lookup failure. -/
def convert_configuration_from_hdf (g : PointingTableHDFGroup) :
    Except String Configuration :=
  match g.config_subgroup with
  | some c => Except.ok c
  | none => Except.error "KeyError"

/-- The group contents written for one PointingTable by
`convert_pointingtable_to_hdf` (calibration_functions.py lines 142-158):
the frame tags, the encoded pointing centre, the seven bulk datasets, and
then the nested configuration sub-group via
`convert_configuration_to_hdf`. -/
def pointingtableGroup (pt : PointingTable) : PointingTableHDFGroup :=
  convert_configuration_to_hdf pt.configuration
    { data_model := "PointingTable"
      receptor_frame := pt.receptor_frame
      pointingcentre_coords := pt.pointingcentre.coords
      pointingcentre_frame := pt.pointingcentre.frame
      pointing_frame := pt.pointing_frame
      data_time := pt.time
      data_nominal := pt.nominal
      data_pointing := pt.pointing
      data_weight := pt.weight
      data_residual := pt.residual
      data_interval := pt.interval
      data_frequency := pt.frequency
      config_subgroup := none }

/-- Embedding of `convert_pointingtable_to_hdf` (calibration_functions.py
lines 130-159): check the `data_model` tag, then write the group
contents. -/
def convert_pointingtable_to_hdf (pt : PointingTable) :
    Except String PointingTableHDFGroup :=
  if pt.data_model ≠ "PointingTable" then
    Except.error "pt is not a PointingTable"
  else
    Except.ok (pointingtableGroup pt)

/-- Embedding of `convert_hdf_to_pointingtable` (calibration_functions.py
lines 162-199): check the tag, decode the pointing centre, read the
configuration sub-group and the seven datasets, and rebuild the container
through the validated constructor. -/
def convert_hdf_to_pointingtable (g : PointingTableHDFGroup) :
    Except String PointingTable :=
  if g.data_model ≠ "PointingTable" then
    Except.error "Not a PointingTable"
  else do
    let configuration ← convert_configuration_from_hdf g
    Except.ok (PointingTable.constructor g.data_time g.data_pointing
      g.data_nominal g.data_weight g.data_residual g.data_interval
      g.data_frequency g.receptor_frame g.pointing_frame
      ⟨g.pointingcentre_coords, g.pointingcentre_frame⟩ configuration)

/-- The container produced by re-importing an exported GainTable: all bulk
arrays and serialized metadata are restored; the configuration and Jones
tag are not serialized, so they come back as the constructor defaults. -/
def gaintableReimported (gt : GainTable) : GainTable :=
  { gt with configuration := none, jones_type := "T" }

/-- Equality of the bulk arrays (time, gain, weight, residual, interval,
frequency) and of the serialized metadata (receptor frames, phase centre
coordinates and frame name) of two gain tables. -/
def GainTable.bulkEq (a b : GainTable) : Prop :=
  a.time = b.time ∧ a.gain = b.gain ∧ a.weight = b.weight
    ∧ a.residual = b.residual ∧ a.interval = b.interval
    ∧ a.frequency = b.frequency
    ∧ a.receptor_frame1 = b.receptor_frame1
    ∧ a.receptor_frame2 = b.receptor_frame2
    ∧ a.phasecentre = b.phasecentre

lemma gaintableReimported_bulkEq (gt : GainTable) :
    (gaintableReimported gt).bulkEq gt :=
  ⟨rfl, rfl, rfl, rfl, rfl, rfl, rfl, rfl, rfl⟩

lemma convert_gaintable_to_hdf_ok (gt : GainTable)
    (h : gt.data_model = "GainTable") :
    convert_gaintable_to_hdf gt = Except.ok (gaintableGroup gt) := by
  unfold convert_gaintable_to_hdf
  rw [if_neg (by simp [h])]

lemma convert_hdf_to_gaintable_group (gt : GainTable)
    (h : gt.data_model = "GainTable") :
    convert_hdf_to_gaintable (gaintableGroup gt)
      = Except.ok (gaintableReimported gt) := by
  unfold convert_hdf_to_gaintable gaintableGroup
  rw [if_neg (by simp)]
  simp only [GainTable.constructor, gaintableReimported, h]

lemma exceptMapList_ok {α β : Type} (F : α → Except String β) (G : α → β) :
    ∀ l : List α, (∀ x ∈ l, F x = Except.ok (G x)) →
      exceptMapList F l = Except.ok (l.map G)
  | [], _ => rfl
  | x :: xs, h => by
      unfold exceptMapList
      rw [h x (List.mem_cons_self x xs),
        exceptMapList_ok F G xs (fun y hy => h y (List.mem_cons_of_mem x hy))]
      rfl

lemma exceptMapList_map {α α' β : Type} (F : α' → Except String β)
    (g : α → α') :
    ∀ l : List α,
      exceptMapList F (l.map g) = exceptMapList (fun x => F (g x)) l
  | [] => rfl
  | x :: xs => by
      rw [List.map_cons]
      unfold exceptMapList
      rw [exceptMapList_map F g xs]

lemma forall₂_map_map {α β γ : Type} (R : β → γ → Prop) (f : α → β)
    (g : α → γ) :
    ∀ l : List α, (∀ x ∈ l, R (f x) (g x)) →
      List.Forall₂ R (l.map f) (l.map g)
  | [], _ => List.Forall₂.nil
  | x :: xs, h =>
      List.Forall₂.cons (h x (List.mem_cons_self x xs))
        (forall₂_map_map R f g xs fun y hy =>
          h y (List.mem_cons_of_mem x hy))

lemma lookupGroup_zero {β : Type} (g : β) (gs : List β) :
    lookupGroup (g :: gs) 0 = Except.ok g := by
  simp [lookupGroup]

lemma lookupGroup_succ {β : Type} (g : β) (gs : List β) (i : ℕ) :
    lookupGroup (g :: gs) (i + 1) = lookupGroup gs i := by
  simp [lookupGroup]

lemma exceptMapList_range_lookup {β γ : Type} (F : β → Except String γ)
    {gs : List β} {out : List γ}
    (h : List.Forall₂ (fun g o => F g = Except.ok o) gs out) :
    exceptMapList
      (fun i => do
        let g ← lookupGroup gs i
        F g)
      (List.range gs.length) = Except.ok out := by
  induction h with
  | nil => rw [List.length_nil, List.range_zero]; rfl
  | cons h1 h2 ih =>
      rename_i g o gs' out'
      rw [List.length_cons, List.range_succ_eq_map]
      unfold exceptMapList
      rw [exceptMapList_map]
      have hfun :
          (fun x : ℕ => do
            let gg ← lookupGroup (g :: gs') (Nat.succ x)
            F gg)
          = (fun i : ℕ => do
            let gg ← lookupGroup gs' i
            F gg) := by
        funext i
        rw [Nat.succ_eq_add_one, lookupGroup_succ]
      rw [hfun, ih]
      simp [lookupGroup_zero, h1, bind, Except.bind]

/-- C1: exporting any valid GainTable — or any ordered non-empty list of
GainTables — to HDF5 with `export_gaintable_to_hdf5` and importing the
file back with `import_gaintable_from_hdf5` yields container(s) whose bulk
arrays (time, gain, weight, residual, interval, frequency) and serialized
metadata (receptor frames, phase centre coordinates and frame name) equal
the originals, for `N = 1` and `N > 1` records in one file; when
`number_data_models = 1` the import returns the single container,
otherwise the ordered list. -/
theorem gaintable_hdf5_export_import_roundtrip
    (gts : List GainTable) (hne : gts ≠ [])
    (hdm : ∀ gt ∈ gts, gt.data_model = "GainTable")
    (gt0 : GainTable) (hdm0 : gt0.data_model = "GainTable") :
    (∀ g1, gts = [g1] →
      ∃ f g, export_gaintable_to_hdf5 (Sum.inr gts) = Except.ok f
        ∧ f.number_data_models = 1
        ∧ import_gaintable_from_hdf5 f = Except.ok (Sum.inl g)
        ∧ g.bulkEq g1)
    ∧ (2 ≤ gts.length →
      ∃ f l, export_gaintable_to_hdf5 (Sum.inr gts) = Except.ok f
        ∧ f.number_data_models = gts.length
        ∧ import_gaintable_from_hdf5 f = Except.ok (Sum.inr l)
        ∧ List.Forall₂ GainTable.bulkEq l gts)
    ∧ (∃ f g, export_gaintable_to_hdf5 (Sum.inl gt0) = Except.ok f
        ∧ f.number_data_models = 1
        ∧ import_gaintable_from_hdf5 f = Except.ok (Sum.inl g)
        ∧ g.bulkEq gt0) := by
  have hexp : export_gaintable_to_hdf5 (Sum.inr gts)
      = Except.ok ⟨gts.length, gts.map gaintableGroup⟩ := by
    unfold export_gaintable_to_hdf5
    show (do
      let gs ← exceptMapList convert_gaintable_to_hdf gts
      Except.ok (⟨gts.length, gs⟩ : GainTableHDFFile)) = _
    rw [exceptMapList_ok convert_gaintable_to_hdf gaintableGroup gts
      (fun gt hgt => convert_gaintable_to_hdf_ok gt (hdm gt hgt))]
    rfl
  have hloop : exceptMapList
      (fun i => do
        let g ← lookupGroup (gts.map gaintableGroup) i
        convert_hdf_to_gaintable g)
      (List.range (gts.map gaintableGroup).length)
      = Except.ok (gts.map gaintableReimported) := by
    apply exceptMapList_range_lookup
    exact forall₂_map_map _ _ _ gts
      (fun gt hgt => convert_hdf_to_gaintable_group gt (hdm gt hgt))
  rw [List.length_map] at hloop
  refine ⟨?_, ?_, ?_⟩
  · rintro g1 rfl
    refine ⟨_, gaintableReimported g1, hexp, rfl, ?_,
      gaintableReimported_bulkEq g1⟩
    unfold import_gaintable_from_hdf5
    rw [show ((⟨[g1].length, [g1].map gaintableGroup⟩ :
        GainTableHDFFile).groups = [g1].map gaintableGroup) from rfl]
    rw [show ((⟨[g1].length, [g1].map gaintableGroup⟩ :
        GainTableHDFFile).number_data_models = [g1].length) from rfl]
    rw [hloop]
    rfl
  · intro h2
    refine ⟨_, gts.map gaintableReimported, hexp, rfl, ?_, ?_⟩
    · unfold import_gaintable_from_hdf5
      rw [show ((⟨gts.length, gts.map gaintableGroup⟩ :
          GainTableHDFFile).groups = gts.map gaintableGroup) from rfl]
      rw [show ((⟨gts.length, gts.map gaintableGroup⟩ :
          GainTableHDFFile).number_data_models = gts.length) from rfl]
      rw [hloop]
      simp only [bind, Except.bind]
      rw [if_neg (by omega)]
    · have hfa := forall₂_map_map GainTable.bulkEq gaintableReimported id
        gts (fun gt _ => gaintableReimported_bulkEq gt)
      simpa using hfa
  · have hexp0 : export_gaintable_to_hdf5 (Sum.inl gt0)
        = Except.ok ⟨1, [gaintableGroup gt0]⟩ := by
      unfold export_gaintable_to_hdf5
      show (do
        let gf ← convert_gaintable_to_hdf gt0
        Except.ok (⟨1, [gf]⟩ : GainTableHDFFile)) = _
      rw [convert_gaintable_to_hdf_ok gt0 hdm0]
      rfl
    refine ⟨_, gaintableReimported gt0, hexp0, rfl, ?_,
      gaintableReimported_bulkEq gt0⟩
    unfold import_gaintable_from_hdf5
    have h1 : exceptMapList
        (fun i => do
          let g ← lookupGroup [gaintableGroup gt0] i
          convert_hdf_to_gaintable g)
        (List.range 1) = Except.ok [gaintableReimported gt0] := by
      have hh := exceptMapList_range_lookup convert_hdf_to_gaintable
        (List.Forall₂.cons (convert_hdf_to_gaintable_group gt0 hdm0)
          List.Forall₂.nil)
      simpa using hh
    rw [show ((⟨1, [gaintableGroup gt0]⟩ :
        GainTableHDFFile).groups = [gaintableGroup gt0]) from rfl]
    rw [show ((⟨1, [gaintableGroup gt0]⟩ :
        GainTableHDFFile).number_data_models = 1) from rfl]
    rw [h1]
    rfl

/-- Concrete antenna configuration value used in witnesses. -/
def exampleConfiguration : Configuration :=
  { name := "LOW", location := (0, 0, 0), names := ["a0", "a1"]
    xyz := [(0, 0, 0), (1, 0, 0)], mount := ["azel", "azel"]
    frame := "ITRF", receptor_frame := ⟨"linear", 2⟩
    diameter := [35, 35], offset := [(0, 0, 0), (0, 0, 0)]
    stations := ["s0", "s1"] }

/-- Concrete valid GainTable (2 times, 2 antennas, 1 channel, linear
receptors) carrying a configuration. -/
def exampleGainTable : GainTable :=
  { time := [0, 1], gain := ⟨[2, 2, 1, 2, 2], fun _ => (1, 0)⟩
    weight := ⟨[2, 2, 1, 2, 2], fun _ => 1⟩
    residual := ⟨[2, 1, 2, 2], fun _ => 0⟩
    interval := [1, 1], frequency := [100000000]
    receptor_frame1 := "linear", receptor_frame2 := "linear"
    phasecentre := ⟨(180, -35), "icrs"⟩
    configuration := some exampleConfiguration
    jones_type := "B", data_model := "GainTable" }

/-- Witness for C1: a two-record file and a single-record file of the
concrete GainTable round-trip with bulk/metadata equality and the
stated import arity. -/
theorem gaintable_hdf5_export_import_roundtrip_witness :
    (∃ f l, export_gaintable_to_hdf5
        (Sum.inr [exampleGainTable, exampleGainTable]) = Except.ok f
      ∧ f.number_data_models = 2
      ∧ import_gaintable_from_hdf5 f = Except.ok (Sum.inr l)
      ∧ List.Forall₂ GainTable.bulkEq l [exampleGainTable, exampleGainTable])
    ∧ (∃ f g, export_gaintable_to_hdf5 (Sum.inl exampleGainTable)
        = Except.ok f
      ∧ f.number_data_models = 1
      ∧ import_gaintable_from_hdf5 f = Except.ok (Sum.inl g)
      ∧ g.bulkEq exampleGainTable) := by
  have h := gaintable_hdf5_export_import_roundtrip
    [exampleGainTable, exampleGainTable] (by simp)
    (by intro gt hgt; simp at hgt; subst hgt; rfl)
    exampleGainTable rfl
  exact ⟨h.2.1 (by simp), h.2.2⟩

/-- Counterexample to C2 as stated: the group written for a valid
GainTable that carries a configuration contains no antenna-configuration
sub-group, and the re-imported container's configuration is absent rather
than equal to the original's. -/
theorem gaintable_group_no_configuration_counterexample :
    ∃ g : GainTableHDFGroup,
      convert_gaintable_to_hdf exampleGainTable = Except.ok g
      ∧ g.config_subgroup = none
      ∧ exampleGainTable.configuration = some exampleConfiguration
      ∧ ∃ gt' : GainTable, convert_hdf_to_gaintable g = Except.ok gt'
          ∧ gt'.configuration ≠ exampleGainTable.configuration := by
  refine ⟨gaintableGroup exampleGainTable,
    convert_gaintable_to_hdf_ok exampleGainTable rfl, rfl, rfl,
    gaintableReimported exampleGainTable,
    convert_hdf_to_gaintable_group exampleGainTable rfl, ?_⟩
  simp [gaintableReimported, exampleGainTable]

/-- C2 (amended): the per-record group written for every valid
PointingTable contains the nested antenna-configuration sub-group written
via the configuration's contract, and re-importing it restores an equal
configuration; the per-record group written for a GainTable contains no
configuration sub-group (and the GainTable import reads none). -/
theorem serialization_configuration_subgroup (pt : PointingTable)
    (hpt : pt.data_model = "PointingTable")
    (gt : GainTable) (hgt : gt.data_model = "GainTable") :
    (∃ g : PointingTableHDFGroup,
      convert_pointingtable_to_hdf pt = Except.ok g
      ∧ g.config_subgroup = some pt.configuration
      ∧ ∃ pt' : PointingTable,
          convert_hdf_to_pointingtable g = Except.ok pt'
          ∧ pt'.configuration = pt.configuration)
    ∧ (∃ g : GainTableHDFGroup,
      convert_gaintable_to_hdf gt = Except.ok g
      ∧ g.config_subgroup = none) := by
  constructor
  · refine ⟨pointingtableGroup pt, ?_, rfl, ?_⟩
    · unfold convert_pointingtable_to_hdf
      rw [if_neg (by simp [hpt])]
    · refine ⟨PointingTable.constructor pt.time pt.pointing pt.nominal
        pt.weight pt.residual pt.interval pt.frequency pt.receptor_frame
        pt.pointing_frame ⟨pt.pointingcentre.coords, pt.pointingcentre.frame⟩
        pt.configuration, ?_, rfl⟩
      unfold convert_hdf_to_pointingtable pointingtableGroup
        convert_configuration_to_hdf convert_configuration_from_hdf
      rw [if_neg (by simp)]
      rfl
  · exact ⟨gaintableGroup gt, convert_gaintable_to_hdf_ok gt hgt, rfl⟩

/-- Concrete valid PointingTable for the C2 witness. -/
def examplePointingTable : PointingTable :=
  { time := [0], pointing := ⟨[1, 2, 1, 1, 2], fun _ => 0⟩
    nominal := ⟨[1, 2, 1, 1, 2], fun _ => 0⟩
    weight := ⟨[1, 2, 1, 1, 2], fun _ => 1⟩
    residual := ⟨[1, 1, 1, 2], fun _ => 0⟩
    interval := [1], frequency := [100000000]
    receptor_frame := "linear", pointing_frame := "azel"
    pointingcentre := ⟨(180, -35), "icrs"⟩
    configuration := exampleConfiguration
    data_model := "PointingTable" }

/-! ## CASA calibration table import (calibration_functions.py lines
245-386)

The casacore table reader is an external collaborator; the columns it
returns are the inputs of the embedding. `CPARAM` is a (rows × channels ×
polarisations) complex array. -/

/-- The columns read from a CASA calibration table and its ANTENNA /
FIELD / OBSERVATION / SPECTRAL_WINDOW sub-tables. -/
structure CasaCalTable where
  base_time : List ℚ
  base_interval : List ℚ
  base_cparam : ℕ → ℕ → ℕ → ℚ × ℚ
  cparam_nchan : ℕ
  base_antenna1 : List ℕ
  chan_freq : List ℚ
  num_chan : ℕ
  telescope_name : String
  ant_names : List String
  ant_mount : List String
  ant_diameter : List ℚ
  ant_position : List (ℚ × ℚ × ℚ)
  ant_offset : List (ℚ × ℚ × ℚ)
  ant_stations : List String
  phase_dir : ℚ × ℚ

/-- Model of `numpy.unique` on a float column: sort ascending and drop
duplicates. -/
def numpyUniqueQ (l : List ℚ) : List ℚ :=
  (l.mergeSort fun a b => a ≤ b).dedup

/-- Model of `numpy.unique` on an integer column. -/
def numpyUniqueN (l : List ℕ) : List ℕ :=
  (l.mergeSort fun a b => a ≤ b).dedup

/-- Model of the numpy slicing `l[::n]` (every n-th element). -/
def strideEvery {α : Type} (n : ℕ) (l : List α) : List α :=
  (l.enum.filter fun p => p.1 % n = 0).map Prod.snd

/-- Model of the boolean-mask selection `column[names != ""]` used by
`_generate_configuration_from_cal_table`. -/
def maskFilter {α : Type} (names : List String) (l : List α) : List α :=
  ((names.zip l).filter fun p => p.1 ≠ "").map Prod.snd

/-- Embedding of `_generate_configuration_from_cal_table`
(calibration_functions.py lines 269-298): every per-antenna column except
`names` itself is masked by `names != ""`; the array location is the
first retained antenna position; the frame is "ITRF". -/
def generate_configuration_from_cal_table (T : CasaCalTable)
    (rec_frame : ReceptorFrame) : Configuration :=
  { name := T.telescope_name
    location := (maskFilter T.ant_names T.ant_position).getD 0 (0, 0, 0)
    names := T.ant_names
    xyz := maskFilter T.ant_names T.ant_position
    mount := maskFilter T.ant_names T.ant_mount
    frame := "ITRF"
    receptor_frame := rec_frame
    diameter := maskFilter T.ant_names T.ant_diameter
    offset := maskFilter T.ant_names T.ant_offset
    stations := maskFilter T.ant_names T.ant_stations }

/-- `nants = len(numpy.unique(antenna))` (calibration_functions.py line
336). -/
def casaNants (T : CasaCalTable) : ℕ :=
  (numpyUniqueN T.base_antenna1).length

/-- `ntimes = len(gain_time)` after timestamp deduplication
(calibration_functions.py lines 321, 337). -/
def casaNtimes (T : CasaCalTable) : ℕ :=
  (numpyUniqueQ T.base_time).length

/-- `gain_shape = [ntimes, nants, nfrequency, nrec, nrec]`
(calibration_functions.py line 338). -/
def casaGainShape (T : CasaCalTable) (rec_frame : ReceptorFrame) :
    List ℕ :=
  [casaNtimes T, casaNants T, T.num_chan, rec_frame.nrec, rec_frame.nrec]

/-- The entry of `numpy.reshape(gains[..., pol], (ntimes, nants,
nfrequency))` at `(t, a, f)`: row-major flat index into the
(rows × channels) source slice of CPARAM. -/
def casaDiag (T : CasaCalTable) (pol t a f : ℕ) : ℚ × ℚ :=
  T.base_cparam
    ((t * casaNants T * T.num_chan + a * T.num_chan + f) / T.cparam_nchan)
    ((t * casaNants T * T.num_chan + a * T.num_chan + f) % T.cparam_nchan)
    pol

/-- One slice assignment `gain[..., r1, r2] = v` over the two receptor
axes. -/
def setRecSlice (A : NDArray (ℚ × ℚ)) (r1 r2 : ℕ)
    (v : ℕ → ℕ → ℕ → ℚ × ℚ) : NDArray (ℚ × ℚ) :=
  ⟨A.shape, fun idx =>
    if idx.getD 3 0 = r1 ∧ idx.getD 4 0 = r2 then
      v (idx.getD 0 0) (idx.getD 1 0) (idx.getD 2 0)
    else A.val idx⟩

/-- The gain array built by the import (calibration_functions.py lines
339-351): `numpy.ones` of `gain_shape` over ℂ, and for more than one
receptor the four slice assignments, in source order: `[0,0]` and `[1,1]`
from CPARAM, then `[0,1] = 0` and `[1,0] = 0`. -/
def casaGain (T : CasaCalTable) (rec_frame : ReceptorFrame) :
    NDArray (ℚ × ℚ) :=
  if 1 < rec_frame.nrec then
    setRecSlice
      (setRecSlice
        (setRecSlice
          (setRecSlice ⟨casaGainShape T rec_frame, fun _ => (1, 0)⟩
            0 0 (casaDiag T 0))
          1 1 (casaDiag T 1))
        0 1 fun _ _ _ => (0, 0))
      1 0 fun _ _ _ => (0, 0)
  else ⟨casaGainShape T rec_frame, fun _ => (1, 0)⟩

/-- Embedding of `import_gaintable_from_casa_cal_table`
(calibration_functions.py lines 301-386): deduplicate the TIME column,
build the gain array, set the weights to one and the residuals to zero,
cut a per-antenna INTERVAL column back to one entry per solution
interval, derive the configuration and phase centre from the sub-tables,
and construct the GainTable. -/
def import_gaintable_from_casa_cal_table (T : CasaCalTable)
    (jones_type : String) (rec_frame : ReceptorFrame) : GainTable :=
  GainTable.constructor (casaGain T rec_frame) (numpyUniqueQ T.base_time)
    (if T.base_interval.length = casaNants T * casaNtimes T then
      strideEvery (casaNants T) T.base_interval
    else T.base_interval)
    ⟨casaGainShape T rec_frame, fun _ => 1⟩
    ⟨[casaNtimes T, T.num_chan, rec_frame.nrec, rec_frame.nrec],
      fun _ => 0⟩
    T.chan_freq (rec_frame.type, rec_frame.type) ⟨T.phase_dir, "icrs"⟩
    (some (generate_configuration_from_cal_table T rec_frame)) jones_type

lemma casaDiag_entry (T : CasaCalTable) (pol t a f : ℕ)
    (hch : T.cparam_nchan = T.num_chan) (hpos : 0 < T.num_chan)
    (hf : f < T.num_chan) :
    casaDiag T pol t a f
      = T.base_cparam (t * casaNants T + a) f pol := by
  unfold casaDiag
  rw [hch]
  have hflat : t * casaNants T * T.num_chan + a * T.num_chan + f
      = T.num_chan * (t * casaNants T + a) + f := by ring
  rw [hflat, Nat.mul_add_div hpos, Nat.div_eq_of_lt hf, Nat.add_zero,
    Nat.mul_add_mod, Nat.mod_eq_of_lt hf]

/-- C9: `import_gaintable_from_casa_cal_table` deduplicates repeated
timestamps (the GainTable time axis holds exactly the distinct input
timestamps, sorted), and for Jones types with more than one receptor it
fills, per (time, antenna, channel), a complex matrix whose off-diagonal
entries are zero and whose diagonal entries come from the solution
table's CPARAM column at the row of that time/antenna pair (under the
reshape-compatibility conditions the numpy code itself requires). -/
theorem casa_cal_table_import_dedup_and_jones
    (T : CasaCalTable) (jt : String) (rf : ReceptorFrame)
    (hnrec : rf.nrec = 2) (hch : T.cparam_nchan = T.num_chan)
    (hpos : 0 < T.num_chan) :
    ((import_gaintable_from_casa_cal_table T jt rf).time.Nodup
      ∧ ∀ x, x ∈ (import_gaintable_from_casa_cal_table T jt rf).time
          ↔ x ∈ T.base_time)
    ∧ (∀ t a f : ℕ, f < T.num_chan →
        (import_gaintable_from_casa_cal_table T jt rf).gain.val
            [t, a, f, 0, 1] = (0, 0)
        ∧ (import_gaintable_from_casa_cal_table T jt rf).gain.val
            [t, a, f, 1, 0] = (0, 0)
        ∧ (import_gaintable_from_casa_cal_table T jt rf).gain.val
            [t, a, f, 0, 0] = T.base_cparam (t * casaNants T + a) f 0
        ∧ (import_gaintable_from_casa_cal_table T jt rf).gain.val
            [t, a, f, 1, 1]
            = T.base_cparam (t * casaNants T + a) f 1) := by
  have hgain : (import_gaintable_from_casa_cal_table T jt rf).gain
      = casaGain T rf := rfl
  have htime : (import_gaintable_from_casa_cal_table T jt rf).time
      = numpyUniqueQ T.base_time := rfl
  constructor
  · rw [htime]
    constructor
    · exact List.nodup_dedup _
    · intro x
      unfold numpyUniqueQ
      rw [List.mem_dedup]
      exact (List.mergeSort_perm T.base_time _).mem_iff
  · intro t a f hf
    rw [hgain]
    unfold casaGain
    rw [if_pos (by omega)]
    refine ⟨?_, ?_, ?_, ?_⟩ <;>
      simp only [setRecSlice, List.getD, List.get?_cons_zero,
        List.get?_cons_succ, Option.getD_some] <;>
      norm_num <;>
      rw [casaDiag_entry T _ t a f hch hpos hf]

/-- Concrete CASA table for the C9 witness: two solution times each
duplicated per antenna (TIME = [5, 5, 7, 7]), two antennas, one
channel. -/
def exampleCasaTable : CasaCalTable :=
  { base_time := [5, 5, 7, 7], base_interval := [10, 10, 10, 10]
    base_cparam := fun r c p => ((r : ℚ) + (c : ℚ) + (p : ℚ), 0)
    cparam_nchan := 1, base_antenna1 := [0, 1, 0, 1]
    chan_freq := [100000000], num_chan := 1, telescope_name := "MID"
    ant_names := ["a0", "a1"], ant_mount := ["azel", "azel"]
    ant_diameter := [15, 15], ant_position := [(0, 0, 0), (1, 0, 0)]
    ant_offset := [(0, 0, 0), (0, 0, 0)], ant_stations := ["s0", "s1"]
    phase_dir := (1, -1) }

/-- Witness for C9: the duplicated timestamps collapse to a nodup time
axis, and the (t=1, a=1, f=0) Jones matrix has zero off-diagonals with
diagonals taken from CPARAM row 3. -/
theorem casa_cal_table_import_dedup_and_jones_witness :
    ((import_gaintable_from_casa_cal_table exampleCasaTable "B"
        ⟨"linear", 2⟩).time.Nodup
      ∧ ((5 : ℚ) ∈ (import_gaintable_from_casa_cal_table exampleCasaTable
          "B" ⟨"linear", 2⟩).time ↔ (5 : ℚ) ∈ exampleCasaTable.base_time))
    ∧ (import_gaintable_from_casa_cal_table exampleCasaTable "B"
        ⟨"linear", 2⟩).gain.val [1, 1, 0, 0, 1] = (0, 0)
    ∧ (import_gaintable_from_casa_cal_table exampleCasaTable "B"
        ⟨"linear", 2⟩).gain.val [1, 1, 0, 1, 1]
        = exampleCasaTable.base_cparam
            (1 * casaNants exampleCasaTable + 1) 0 1 := by
  have h := casa_cal_table_import_dedup_and_jones exampleCasaTable "B"
    ⟨"linear", 2⟩ rfl rfl (by decide)
  have h2 := h.2 1 1 0 (by decide)
  exact ⟨⟨h.1.1, h.1.2 5⟩, h2.1, h2.2.2.2⟩

/-- Witness for the amended C2 at the concrete containers. -/
theorem serialization_configuration_subgroup_witness :
    (∃ g : PointingTableHDFGroup,
      convert_pointingtable_to_hdf examplePointingTable = Except.ok g
      ∧ g.config_subgroup = some examplePointingTable.configuration
      ∧ ∃ pt' : PointingTable,
          convert_hdf_to_pointingtable g = Except.ok pt'
          ∧ pt'.configuration = examplePointingTable.configuration)
    ∧ (∃ g : GainTableHDFGroup,
      convert_gaintable_to_hdf exampleGainTable = Except.ok g
      ∧ g.config_subgroup = none) :=
  serialization_configuration_subgroup examplePointingTable rfl
    exampleGainTable rfl
